import Mathlib

/-!
Shallow embedding of the tick-driven simulation engine of the
Into-the-Stars / Von-Neumann-Expansion repository (src/App.tsx,
src/logic/gameLoop.ts, src/logic/sectorGeneration.ts,
src/logic/autonomySystem.ts, src/logic/aiBehaviorSystem.ts,
src/handlers/navigationHandlers.ts and the operation handlers).

Conventions of the embedding:
- JavaScript numbers are modelled as exact rationals; IEEE-754 rounding is
  out of scope.
- Math.random draws and Date.now timestamps are explicit parameters of an
  environment record, consumed in source order.
- Math.cos, Math.sin and Math.atan2 over headings are transcendental and are
  supplied by the environment as oracles.
- Math.sqrt is modelled by ratSqrt, which is exact on perfect squares of
  moderate size (a fuel-bounded integer square root); theorems below depend
  on its value only on perfect squares, and otherwise only on nonnegativity.
- Strings pushed to the global mission log are not modelled (the world-state
  components quantified by the claims are probes, systems, sector set and
  science); the probe-level AI decision log is modelled.
-/

namespace VonNeumann
/-- Fuel-bounded binary search for the integer square root: maintains
lo * lo ≤ n < hi * hi and returns lo when the interval closes. -/
def isqrtGo (n : ℕ) : ℕ → ℕ → ℕ → ℕ
  | 0, lo, _ => lo
  | fuel + 1, lo, hi =>
    if hi ≤ lo + 1 then lo
    else
      let mid := (lo + hi) / 2
      if mid * mid ≤ n then isqrtGo n fuel mid hi
      else isqrtGo n fuel lo mid

/-- Integer square root with 64 fuel steps, enough for every input below
2 to the 64; exact floor square root on that range. -/
def natSqrt (n : ℕ) : ℕ := isqrtGo n 64 0 (n + 1)

/-- Model of Math.sqrt on the rationals: exact when numerator and
denominator are perfect squares, otherwise a floor-style approximation.
All theorems below use it either on perfect squares or only through
nonnegativity. -/
def ratSqrt (q : ℚ) : ℚ :=
  if q ≤ 0 then 0
  else
    let n := q.num.toNat
    let d := q.den
    let sn := natSqrt n
    let sd := natSqrt d
    if sn * sn = n ∧ sd * sd = d then (sn : ℚ) / (sd : ℚ)
    else (natSqrt (n * d) : ℚ) / (d : ℚ)

/-- Model of Math.hypot and of Math.sqrt over a sum of two squares. -/
def hypot (dx dy : ℚ) : ℚ := ratSqrt (dx * dx + dy * dy)

/-- Math.floor, returned as a rational. -/
def jsFloor (q : ℚ) : ℚ := (⌊q⌋ : ℚ)

/-- Math.ceil, returned as a rational. -/
def jsCeil (q : ℚ) : ℚ := (⌈q⌉ : ℚ)

-- Constants from src/constants.ts (values used by the logic layer).
def SECTOR_SIZE : ℚ := 1000

def FUEL_CONSUMPTION_RATE : ℚ := 1 / 5

def PASSIVE_SCAN_RANGE : ℚ := 150

def TURN_COST_PER_DEGREE : ℚ := 1 / 5

def SOLAR_SAIL_SPEED_MULTIPLIER : ℚ := 1 / 20

def RESEARCH_RATE_BASE : ℚ := 2

def SCIENCE_DISTANCE_FACTOR : ℚ := 1 / 500

def SCIENCE_BASE_PER_SYSTEM : ℚ := 20

def UNIVERSE_WIDTH : ℚ := 2000

def UNIVERSE_HEIGHT : ℚ := 2000

/-- 2D position, from src/types.ts Coordinates. -/
structure Coordinates where
  x : ℚ
  y : ℚ
deriving DecidableEq

/-- The eight probe states of src/types.ts ProbeState. -/
inductive ProbeState where
  | Idle
  | Traveling
  | MiningMetal
  | MiningPlutonium
  | Replicating
  | Scanning
  | Exploring
  | Researching
deriving DecidableEq

/-- src/types.ts ResourceType. -/
inductive ResourceType where
  | Metal
  | Plutonium
deriving DecidableEq

/-- A Metal/Plutonium keyed record, used for inventories, abundances and
yields. -/
structure ResourceMap where
  Metal : ℚ
  Plutonium : ℚ
deriving DecidableEq

def ResourceMap.get (m : ResourceMap) : ResourceType → ℚ
  | ResourceType.Metal => m.Metal
  | ResourceType.Plutonium => m.Plutonium

def ResourceMap.set (m : ResourceMap) : ResourceType → ℚ → ResourceMap
  | ResourceType.Metal, v => { m with Metal := v }
  | ResourceType.Plutonium, v => { m with Plutonium := v }

/-- src/types.ts ProbeStats. -/
structure ProbeStats where
  miningSpeed : ℚ
  flightSpeed : ℚ
  replicationSpeed : ℚ
  scanRange : ℚ
  scanSpeed : ℚ
  autonomyLevel : ℚ
deriving DecidableEq

/-- Resource and time cost of a blueprint. -/
structure BlueprintCost where
  Metal : ℚ
  Plutonium : ℚ
  time : ℚ
deriving DecidableEq

/-- src/types.ts ProbeBlueprint. -/
structure ProbeBlueprint where
  id : String
  name : String
  stats : ProbeStats
  cost : BlueprintCost
  isCustom : Bool
  initialInventory : Option ResourceMap := none
deriving DecidableEq

/-- src/types.ts AIBehavior modes. -/
inductive AIBehavior where
  | NoneMode
  | FocusMining
  | FocusExploring
  | FocusScience
  | FocusReplication
deriving DecidableEq

/-- src/types.ts SolarSystem. Optional narrative text is omitted (never read
by the logic layer). -/
structure SolarSystem where
  id : String
  name : String
  position : Coordinates
  discovered : Bool
  visited : Bool
  analyzed : Bool
  resources : ResourceMap
  resourceYield : ResourceMap
  scienceRemaining : Option ℚ := none
  scienceTotal : Option ℚ := none
deriving DecidableEq

/-- src/types.ts Probe. Undefined-able fields are Options. -/
structure Probe where
  id : String
  name : String
  model : String
  state : ProbeState
  locationId : Option String
  targetSystemId : Option String
  originSystemId : Option String := none
  lastScannedSystemId : Option String := none
  position : Coordinates
  heading : Option ℚ := none
  inventory : ResourceMap
  stats : ProbeStats
  progress : ℚ
  miningBuffer : ℚ
  isSolarSailing : Bool := false
  isAutonomyEnabled : Bool
  aiBehavior : AIBehavior := AIBehavior.NoneMode
  miningBatchProgress : Option ℚ := none
  aiDecisionLog : Option (List String) := none
  lastDiversionCheck : Option ℚ := none
  lastSafetyCheck : Option ℚ := none
  lastReplicationTime : Option ℚ := none
  pendingBlueprint : Option ProbeBlueprint := none
deriving DecidableEq

/-- The world snapshot threaded through the tick and the command handlers
(src/types.ts GameState restricted to the fields the logic layer reads). -/
structure GameState where
  systems : List SolarSystem
  probes : List Probe
  generatedSectors : List String
  science : ℚ
  relays : List String
  purchasedUnlocks : List String
  selectedProbeId : Option String
  logs : List String
deriving DecidableEq

/-- Environment oracles: the Math.random draw stream (indexed in source
order), and the transcendental functions over headings. cosDeg and sinDeg
take the heading in degrees; atanDeg is Math.atan2 converted to degrees
(possibly negative, as in the source before its normalization). -/
structure Env where
  rand : ℕ → ℚ
  cosDeg : ℚ → ℚ
  sinDeg : ℚ → ℚ
  atanDeg : ℚ → ℚ → ℚ

-- The core rational operations are marked irreducible upstream, which only
-- blocks elaboration-time evaluation; the kernel reduces them regardless.
-- Restoring semireducibility lets concrete evaluations go through decide.
set_option allowUnsafeReducibility true in
attribute [semireducible] Rat.add Rat.mul Rat.sub Rat.inv Rat.neg Rat.blt

/-- First match of a predicate together with its index: the JavaScript
findIndex paired with the element found there. -/
def findWithIndex (p : α → Prop) [DecidablePred p] (l : List α) : Option (ℕ × α) :=
  l.enum.find? (fun x => decide (p x.2))

/-- A partial update of a SolarSystem, as produced by the logic layer
(object-spread patches in the source touch exactly these fields). -/
structure SystemPatch where
  discovered : Option Bool := none
  visited : Option Bool := none
  analyzed : Option Bool := none
  scienceRemaining : Option ℚ := none
deriving DecidableEq

/-- Spreading a patch over a system. -/
def SystemPatch.applyTo (p : SystemPatch) (s : SolarSystem) : SolarSystem :=
  { s with
    discovered := p.discovered.getD s.discovered
    visited := p.visited.getD s.visited
    analyzed := p.analyzed.getD s.analyzed
    scienceRemaining :=
      match p.scienceRemaining with
      | some v => some v
      | none => s.scienceRemaining }

def discoveredPatch : SystemPatch := { discovered := some true }

def visitedDiscoveredPatch : SystemPatch :=
  { visited := some true, discovered := some true }

def analyzedPatch : SystemPatch := { analyzed := some true }

def sciencePatch (v : ℚ) : SystemPatch := { scienceRemaining := some v }

/-- An index-addressed system patch, the systemUpdates entries of the
StateUpdateResult records in src/logic/gameLoop.ts. -/
structure SystemUpdate where
  index : ℕ
  updates : SystemPatch
deriving DecidableEq

/-- App.tsx applies each update by index into the working systems array.
An out-of-range index is ignored here; the source would create a corrupt
sparse entry, a path no claim exercises. -/
def applySystemUpdates (systems : List SolarSystem) (updates : List SystemUpdate) :
    List SolarSystem :=
  updates.foldl
    (fun acc u =>
      match acc.get? u.index with
      | some s => acc.set u.index (u.updates.applyTo s)
      | none => acc)
    systems

-- ### src/utils/gameHelpers.ts: procedural generation

def nameFirstParts : List String :=
  ["Alpha", "Beta", "Gamma", "Delta", "Epsilon", "Zeta", "Eta", "Theta",
   "Omicron", "Sigma"]

def nameSecondParts : List String :=
  ["Majoris", "Minoris", "Prime", "Centauri", "Cygni", "Lyrae", "Eridani",
   "V", "X", "B"]

/-- gameHelpers.generateCoordinatesInSector; rx and ry are its two
Math.random draws. -/
def generateCoordinatesInSector (sectorX sectorY : ℤ) (rx ry : ℚ) : Coordinates :=
  { x := sectorX * SECTOR_SIZE + jsFloor (rx * (SECTOR_SIZE - 100)) + 50
  , y := sectorY * SECTOR_SIZE + jsFloor (ry * (SECTOR_SIZE - 100)) + 50 }

/-- gameHelpers.generateSystemName; rSuffix and rNum are its two Math.random
draws, i the caller-chosen index. -/
def generateSystemName (i : ℤ) (rSuffix rNum : ℚ) : String :=
  nameFirstParts.getD (i % 10).toNat "" ++ " " ++
    nameSecondParts.getD (⌊rSuffix * 10⌋).toNat "" ++ " " ++
    toString ⌊rNum * 999⌋

/-- Body of the generation loop in gameHelpers.generateSystemsForSector for
loop index i; its nine Math.random draws start at stream index base. -/
def generateOneSystem (env : Env) (base : ℕ) (sectorX sectorY : ℤ)
    (earthPos : Coordinates) (i : ℕ) (now : ℤ) : SolarSystem :=
  let position := generateCoordinatesInSector sectorX sectorY
    (env.rand base) (env.rand (base + 1))
  let distFromEarth := ratSqrt
    ((position.x - earthPos.x) * (position.x - earthPos.x) +
      (position.y - earthPos.y) * (position.y - earthPos.y))
  let distFactor := min (distFromEarth / 5000) 2
  let science := max 0
    (jsFloor (SCIENCE_BASE_PER_SYSTEM + distFromEarth * SCIENCE_DISTANCE_FACTOR))
  let getAbundance := fun (r : ℚ) =>
    jsFloor (max 5 (min 100 (10 + 50 * distFactor + (r * 30 - 15))))
  let getYield := fun (r mult : ℚ) =>
    jsFloor ((1000 + 9000 * distFactor) * (4 / 5 + r * (2 / 5)) * mult)
  { id := "sys-" ++ toString sectorX ++ "-" ++ toString sectorY ++ "-" ++
      toString i ++ "-" ++ toString now
  , name := generateSystemName ⌊env.rand (base + 2) * 1000⌋
      (env.rand (base + 3)) (env.rand (base + 4))
  , position := position
  , visited := false
  , analyzed := false
  , discovered := false
  , resources :=
      { Metal := getAbundance (env.rand (base + 5))
      , Plutonium := getAbundance (env.rand (base + 6)) }
  , resourceYield :=
      { Metal := getYield (env.rand (base + 7)) 1
      , Plutonium := getYield (env.rand (base + 8)) (1 / 2) }
  , scienceRemaining := some science
  , scienceTotal := some science }

/-- gameHelpers.generateSystemsForSector: the count draw comes first, then
nine draws per generated system. -/
def generateSystemsForSector (env : Env) (rBase : ℕ) (sectorX sectorY : ℤ)
    (earthPos : Coordinates) (now : ℤ) : List SolarSystem :=
  let count := (⌊env.rand rBase * 4⌋).toNat
  (List.range count).map
    (fun i => generateOneSystem env (rBase + 1 + 9 * i) sectorX sectorY earthPos i now)

/-- Number of Math.random draws consumed by one generateSystemsForSector
call. -/
def sectorGenDrawCount (env : Env) (rBase : ℕ) : ℕ :=
  1 + 9 * (⌊env.rand rBase * 4⌋).toNat

-- ### src/logic/sectorGeneration.ts

/-- The sector key derived from a continuous position. -/
def sectorKeyOf (position : Coordinates) : String :=
  toString ⌊position.x / SECTOR_SIZE⌋ ++ "," ++ toString ⌊position.y / SECTOR_SIZE⌋

structure SectorGenerationResult where
  generated : Bool
  sectorKey : Option String := none
  newSystems : List SolarSystem
deriving DecidableEq

/-- sectorGeneration.checkSectorGeneration. The currentSystemCount argument
is accepted and ignored exactly as in the source. -/
def checkSectorGeneration (env : Env) (rBase : ℕ) (position : Coordinates)
    (generatedSectors : List String) (earthPos : Coordinates) (now : ℤ)
    (_currentSystemCount : ℕ) : SectorGenerationResult :=
  let sectorX := ⌊position.x / SECTOR_SIZE⌋
  let sectorY := ⌊position.y / SECTOR_SIZE⌋
  let sectorKey := toString sectorX ++ "," ++ toString sectorY
  if generatedSectors.contains sectorKey then
    { generated := false, newSystems := [] }
  else
    { generated := true
    , sectorKey := some sectorKey
    , newSystems := generateSystemsForSector env rBase sectorX sectorY earthPos now }

/-- sectorGeneration.performPassiveScan; the log messages the source also
returns are not modelled. -/
def performPassiveScan (position : Coordinates) (systems : List SolarSystem) :
    List SystemUpdate :=
  systems.enum.filterMap
    (fun p =>
      if p.2.discovered = false ∧
          hypot (p.2.position.x - position.x) (p.2.position.y - position.y) ≤
            PASSIVE_SCAN_RANGE then
        some { index := p.1, updates := discoveredPatch }
      else none)

-- ### src/logic/gameLoop.ts: per-state processors

/-- Nearest system strictly closer than every earlier candidate, starting
from an infinite bound: the recurring forEach minimum-distance loop. -/
def nearestInf (pos : Coordinates) (ss : List SolarSystem) :
    Option (SolarSystem × ℚ) :=
  ss.foldl
    (fun acc s =>
      let d := hypot (s.position.x - pos.x) (s.position.y - pos.y)
      match acc with
      | none => some (s, d)
      | some (_, m) => if d < m then some (s, d) else acc)
    none

/-- Same loop with a finite starting bound (the auto-divert scan-range
variant). -/
def nearestWithin (pos : Coordinates) (ss : List SolarSystem) (bound : ℚ) :
    Option SolarSystem :=
  (ss.foldl
    (fun (acc : Option SolarSystem × ℚ) s =>
      let d := hypot (s.position.x - pos.x) (s.position.y - pos.y)
      if d < acc.2 then (some s, d) else acc)
    (none, bound)).1

structure TravelResult where
  probe : Probe
  systemUpdates : List SystemUpdate
deriving DecidableEq

/-- gameLoop.processTravelingProbe. -/
def processTravelingProbe (probe : Probe) (systems : List SolarSystem)
    (delta : ℚ) : TravelResult :=
  match systems.find? (fun s => some s.id = probe.locationId),
      systems.find? (fun s => some s.id = probe.targetSystemId) with
  | some startSys, some targetSys =>
    let totalDist := hypot (targetSys.position.x - startSys.position.x)
      (targetSys.position.y - startSys.position.y)
    let speedMultiplier : ℚ :=
      if probe.isSolarSailing then SOLAR_SAIL_SPEED_MULTIPLIER else 1
    let unitsPerSecond := 10 * probe.stats.flightSpeed * speedMultiplier
    let unitsTraveled := unitsPerSecond * (delta / 1000)
    let newProgress := probe.progress + unitsTraveled / totalDist
    let currentPos : Coordinates :=
      { x := startSys.position.x +
          (targetSys.position.x - startSys.position.x) * newProgress
      , y := startSys.position.y +
          (targetSys.position.y - startSys.position.y) * newProgress }
    let scanUpdates := performPassiveScan currentPos systems
    if 1 ≤ newProgress then
      let arrivedProbe := { probe with
        state := ProbeState.Idle
        locationId := some targetSys.id
        position := targetSys.position
        progress := 0
        isSolarSailing := false }
      let arrivalUpdates :=
        match findWithIndex (fun s => s.id = targetSys.id) systems with
        | some (sysIndex, sys) =>
          if sys.visited = false ∨ sys.discovered = false then
            [{ index := sysIndex, updates := visitedDiscoveredPatch }]
          else []
        | none => []
      { probe := arrivedProbe, systemUpdates := scanUpdates ++ arrivalUpdates }
    else
      { probe := { probe with progress := newProgress, position := currentPos }
      , systemUpdates := scanUpdates }
  | _, _ => { probe := probe, systemUpdates := [] }

structure ResearchResult where
  probe : Probe
  systemUpdates : List SystemUpdate
  scienceDelta : ℚ
deriving DecidableEq

/-- gameLoop.processResearchingProbe. -/
def processResearchingProbe (probe : Probe) (systems : List SolarSystem)
    (delta : ℚ) : ResearchResult :=
  match findWithIndex (fun s => some s.id = probe.locationId) systems with
  | none =>
    { probe := { probe with state := ProbeState.Idle, progress := 0 }
    , systemUpdates := [], scienceDelta := 0 }
  | some (sysIndex, system) =>
    let remaining := system.scienceRemaining.getD 0
    if remaining ≤ 0 then
      { probe := { probe with state := ProbeState.Idle, progress := 0 }
      , systemUpdates := [], scienceDelta := 0 }
    else
      let ratePerSecond := RESEARCH_RATE_BASE * max (1 / 10) probe.stats.scanSpeed
      let amount := ratePerSecond * (delta / 1000)
      let toCollect := min amount remaining
      let newRemaining := max 0 (remaining - toCollect)
      let st := system.scienceTotal.getD 0
      let progressTotal := if 0 < st then st else remaining
      let collectedSoFar := progressTotal - newRemaining
      let updates := [{ index := sysIndex, updates := sciencePatch newRemaining }]
      if newRemaining ≤ 0 then
        { probe := { probe with state := ProbeState.Idle, progress := 0 }
        , systemUpdates := updates, scienceDelta := toCollect }
      else
        { probe := { probe with
            progress := min 100 (collectedSoFar / progressTotal * 100) }
        , systemUpdates := updates, scienceDelta := toCollect }

/-- The inline mining rate of gameLoop.processMiningProbe: a base rate of
two units per second scaled by abundance percentage and mining speed. -/
def miningRatePerSecond (system : SolarSystem) (rt : ResourceType)
    (stats : ProbeStats) : ℚ :=
  2 * (system.resources.get rt / 100) * stats.miningSpeed

structure YieldUpdate where
  index : ℕ
  resourceType : ResourceType
  newYield : ℚ
deriving DecidableEq

structure MiningResult where
  probe : Probe
  systemYieldUpdate : Option YieldUpdate := none
  -- The TypeScript record returned by processMiningProbe carries no
  -- shouldCheckAutonomy field, so its consumer in App.tsx reads undefined;
  -- the absent field is modelled as a constant false.
  shouldCheckAutonomy : Bool := false
deriving DecidableEq

/-- The resource a mining state extracts: Metal for MiningMetal, else
Plutonium. -/
def miningResourceTypeOf (probe : Probe) : ResourceType :=
  if probe.state = ProbeState.MiningMetal then ResourceType.Metal
  else ResourceType.Plutonium

/-- gameLoop.processMiningProbe. -/
def processMiningProbe (probe : Probe) (systems : List SolarSystem)
    (delta : ℚ) : MiningResult :=
  match findWithIndex (fun s => some s.id = probe.locationId) systems with
  | none => { probe := probe }
  | some (sysIndex, system) =>
    let resourceType := miningResourceTypeOf probe
    if 0 < system.resourceYield.get resourceType then
      let amountToAdd := miningRatePerSecond system resourceType probe.stats * (delta / 1000)
      let buffer1 := probe.miningBuffer + amountToAdd
      if 1 ≤ buffer1 then
        let transferAmount := jsFloor buffer1
        let actualTransfer := min transferAmount (system.resourceYield.get resourceType)
        { probe := { probe with
            inventory := probe.inventory.set resourceType
              (probe.inventory.get resourceType + actualTransfer)
            miningBuffer := buffer1 - transferAmount
            progress := min ((buffer1 - transferAmount) * 100) 100 }
        , systemYieldUpdate := some
            { index := sysIndex
            , resourceType := resourceType
            , newYield := system.resourceYield.get resourceType - actualTransfer } }
      else
        { probe := { probe with
            miningBuffer := buffer1
            progress := min (buffer1 * 100) 100 } }
    else
      { probe := { probe with
          state := ProbeState.Idle, progress := 0, miningBuffer := 0 } }

structure ReplicationResult where
  probe : Probe
  newProbes : List Probe
  colonized : List String
  randConsumed : ℕ
deriving DecidableEq

/-- gameLoop.processReplicatingProbe. The colonized set the source mutates
in place is threaded through the result; the new probe id and custom-name
suffix consume Math.random draws starting at rBase. -/
def processReplicatingProbe (env : Env) (rBase : ℕ) (probe : Probe)
    (delta : ℚ) (colonizedSystemIds : List String) (now : ℤ) :
    ReplicationResult :=
  match probe.pendingBlueprint with
  | none =>
    { probe := { probe with state := ProbeState.Idle }
    , newProbes := [], colonized := colonizedSystemIds, randConsumed := 0 }
  | some pendingBlueprint =>
    let baseTime := pendingBlueprint.cost.time
    let speed := max (1 / 10) probe.stats.replicationSpeed
    let effectiveTime := baseTime / speed
    let newProgress := probe.progress + delta / effectiveTime * 100
    if 100 ≤ newProgress then
      let newId := "probe-" ++ toString now ++ "-" ++
        toString ⌊env.rand rBase * 1000⌋
      let newName :=
        if pendingBlueprint.isCustom then
          pendingBlueprint.name ++ "-" ++ toString ⌊env.rand (rBase + 1) * 100⌋
        else "Constructing..."
      let newProbe : Probe :=
        { id := newId
        , name := newName
        , model := pendingBlueprint.name
        , state := ProbeState.Idle
        , locationId := probe.locationId
        , originSystemId := probe.locationId
        , lastScannedSystemId := probe.locationId
        , position := probe.position
        , targetSystemId := none
        , inventory := pendingBlueprint.initialInventory.getD
            { Metal := 0, Plutonium := 0 }
        , stats := pendingBlueprint.stats
        , progress := 0
        , miningBuffer := 0
        , isSolarSailing := false
        , isAutonomyEnabled := true
        , lastDiversionCheck := some (now : ℚ) }
      let colonized1 :=
        match probe.locationId with
        | some l => colonizedSystemIds ++ [l]
        | none => colonizedSystemIds
      { probe := { probe with
          state := ProbeState.Idle, progress := 0, pendingBlueprint := none }
      , newProbes := [newProbe]
      , colonized := colonized1
      , randConsumed := if pendingBlueprint.isCustom then 2 else 1 }
    else
      { probe := { probe with progress := newProgress }
      , newProbes := [], colonized := colonizedSystemIds, randConsumed := 0 }

structure ExploreResult where
  probe : Probe
  systemUpdates : List SystemUpdate
  sectorGenerated : Bool
  newSystems : List SolarSystem
  randConsumed : ℕ
deriving DecidableEq

/-- The one-second throttle on the periodic checks: open when no timestamp
was recorded yet or more than 1000 ms have passed. -/
def timeGateOpen (last : Option ℚ) (now : ℚ) : Bool :=
  match last with
  | none => true
  | some t => decide (1000 < now - t)

/-- gameLoop.processExploringProbe. The cosine and sine of the heading and
the atan2 of the divert targets come from the environment oracles. -/
def processExploringProbe (env : Env) (rBase : ℕ) (probe : Probe)
    (systems : List SolarSystem) (generatedSectors : List String)
    (earthPos : Coordinates) (delta : ℚ) (now : ℤ) : ExploreResult :=
  match probe.heading with
  | none =>
    { probe := probe, systemUpdates := [], sectorGenerated := false
    , newSystems := [], randConsumed := 0 }
  | some heading =>
    let hasFuel := 0 < probe.inventory.Plutonium
    let speed0 := 10 * probe.stats.flightSpeed
    let speed := if hasFuel then speed0 else speed0 * SOLAR_SAIL_SPEED_MULTIPLIER
    let moveDist := speed * (delta / 1000)
    let dx := env.cosDeg heading * moveDist
    let dy := env.sinDeg heading * moveDist
    let pos1 : Coordinates :=
      { x := probe.position.x + dx, y := probe.position.y + dy }
    let probe1 := { probe with position := pos1 }
    let probe2 :=
      if hasFuel then
        let distTraveled := ratSqrt (dx * dx + dy * dy)
        let fuelCost := distTraveled * FUEL_CONSUMPTION_RATE
        { probe1 with inventory := { probe1.inventory with
            Plutonium := max 0 (probe1.inventory.Plutonium - fuelCost) } }
      else probe1
    let sectorResult := checkSectorGeneration env rBase pos1 generatedSectors
      earthPos now systems.length
    let sectorGenerated := sectorResult.generated
    let newSystems := sectorResult.newSystems
    let randConsumed := if sectorGenerated then sectorGenDrawCount env rBase else 0
    match findWithIndex
        (fun s => hypot (s.position.x - pos1.x) (s.position.y - pos1.y) ≤ 5)
        systems with
    | some (i, sys) =>
      let dockedProbe := { probe2 with
        state := ProbeState.Idle
        locationId := some sys.id
        position := sys.position
        heading := none }
      let dockUpdates :=
        if sys.visited = false ∨ sys.discovered = false then
          [{ index := i, updates := visitedDiscoveredPatch }]
        else []
      { probe := dockedProbe, systemUpdates := dockUpdates
      , sectorGenerated := sectorGenerated, newSystems := newSystems
      , randConsumed := randConsumed }
    | none =>
      let allSystems := if sectorGenerated then systems ++ newSystems else systems
      let scanUpdates := performPassiveScan pos1 allSystems
      let divertDue :=
        0 < probe2.stats.autonomyLevel ∧ probe2.isAutonomyEnabled = true ∧
          timeGateOpen probe2.lastDiversionCheck (now : ℚ) = true
      let probe3 :=
        if divertDue then
          let probe2a := { probe2 with lastDiversionCheck := some (now : ℚ) }
          let range := probe2.stats.scanRange
          let candidates := allSystems.filter
            (fun s => s.discovered = true ∧ (s.visited = false ∨ s.analyzed = false))
          match nearestWithin pos1 candidates range with
          | some tSys =>
            let tx := tSys.position.x - pos1.x
            let ty := tSys.position.y - pos1.y
            let targetHeading0 := env.atanDeg ty tx
            let targetHeading :=
              if targetHeading0 < 0 then targetHeading0 + 360 else targetHeading0
            let diff0 := |targetHeading - heading|
            let diff := if 180 < diff0 then 360 - diff0 else diff0
            let turnCost := diff * TURN_COST_PER_DEGREE
            let probe2b := { probe2a with heading := some targetHeading }
            if turnCost ≤ probe2b.inventory.Plutonium then
              { probe2b with inventory := { probe2b.inventory with
                  Plutonium := probe2b.inventory.Plutonium - turnCost } }
            else
              { probe2b with
                inventory := { probe2b.inventory with Plutonium := 0 }
                isSolarSailing := true }
          | none => probe2a
        else probe2
      let safetyDue :=
        hasFuel ∧ timeGateOpen probe3.lastSafetyCheck (now : ℚ) = true
      let probe4 :=
        if safetyDue then
          let probe3a := { probe3 with lastSafetyCheck := some (now : ℚ) }
          let safeSystems := allSystems.filter (fun s => s.discovered = true)
          match nearestInf pos1 safeSystems with
          | some (nearest, minDist) =>
            let travelReturnCost := minDist * FUEL_CONSUMPTION_RATE
            let ddx := nearest.position.x - pos1.x
            let ddy := nearest.position.y - pos1.y
            let targetHeading0 := env.atanDeg ddy ddx
            let targetHeading :=
              if targetHeading0 < 0 then targetHeading0 + 360 else targetHeading0
            let diff0 := |targetHeading - (probe3a.heading.getD 0)|
            let diff := if 180 < diff0 then 360 - diff0 else diff0
            let turnReturnCost := diff * TURN_COST_PER_DEGREE
            let totalReturnCost := travelReturnCost + turnReturnCost
            if probe3a.inventory.Plutonium < totalReturnCost * (6 / 5) then
              { probe3a with
                heading := some targetHeading
                inventory := { probe3a.inventory with
                  Plutonium := max 0 (probe3a.inventory.Plutonium - turnReturnCost) } }
            else probe3a
          | none => probe3a
        else probe3
      { probe := probe4, systemUpdates := scanUpdates
      , sectorGenerated := sectorGenerated, newSystems := newSystems
      , randConsumed := randConsumed }

structure ScanProcessResult where
  probe : Probe
  systemUpdates : List SystemUpdate
  sectorGenerated : Bool
  newSystems : List SolarSystem
  randConsumed : ℕ
deriving DecidableEq

/-- gameLoop.processScanningProbe. Newly generated systems inside the scan
radius are marked discovered in place, exactly as the source mutates its
fresh newSystems array. -/
def processScanningProbe (env : Env) (rBase : ℕ) (probe : Probe)
    (systems : List SolarSystem) (generatedSectors : List String)
    (earthPos : Coordinates) (delta : ℚ) (now : ℤ) : ScanProcessResult :=
  let scanInc := probe.stats.scanSpeed * (delta / 30)
  let newProgress := probe.progress + scanInc
  if newProgress < 100 then
    { probe := { probe with progress := newProgress }
    , systemUpdates := [], sectorGenerated := false, newSystems := []
    , randConsumed := 0 }
  else
    let probe1 := { probe with
      state := ProbeState.Idle
      progress := 0
      lastScannedSystemId :=
        match probe.locationId with
        | some l => some l
        | none => probe.lastScannedSystemId }
    let range := probe.stats.scanRange
    let sectorResult := checkSectorGeneration env rBase probe.position
      generatedSectors earthPos now systems.length
    let sectorGenerated := sectorResult.generated
    let newSystems0 := sectorResult.newSystems
    let randConsumed := if sectorGenerated then sectorGenDrawCount env rBase else 0
    let allSystems := if sectorGenerated then systems ++ newSystems0 else systems
    let marked := allSystems.enum.foldl
      (fun (acc : List SystemUpdate × List SolarSystem) p =>
        let idx := p.1
        let sys := p.2
        if sys.discovered = false ∧
            hypot (sys.position.x - probe.position.x)
              (sys.position.y - probe.position.y) ≤ range then
          if idx < systems.length then
            (acc.1 ++ [{ index := idx, updates := discoveredPatch }], acc.2)
          else
            (acc.1, acc.2.set (idx - systems.length) { sys with discovered := true })
        else acc)
      ([], newSystems0)
    { probe := probe1, systemUpdates := marked.1
    , sectorGenerated := sectorGenerated, newSystems := marked.2
    , randConsumed := randConsumed }

-- ### src/logic/aiBehaviorSystem.ts

inductive DecisionAction where
  | mine_metal
  | mine_plutonium
  | travel
  | scan
  | research
  | deploy_relay
  | replicate
  | idle
deriving DecidableEq

structure ReplicationThresholds where
  metal : ℚ
  plutonium : ℚ
  time : ℚ
deriving DecidableEq

structure BehaviorDecision where
  action : DecisionAction
  targetSystemId : Option String := none
  reason : String
  replicationThresholds : Option ReplicationThresholds := none
deriving DecidableEq

-- Local constants of processFocusReplication.
def REPLICATION_METAL : ℚ := 500

def REPLICATION_PLUTONIUM : ℚ := 300

def REPLICATION_COOLDOWN : ℚ := 20000

/-- The candidate filter of processFocusReplication: discovered systems
other than the current location with yields at or above both thresholds. -/
def replicationCandidates (probe : Probe) (systems : List SolarSystem) :
    List SolarSystem :=
  systems.filter
    (fun s => s.discovered = true ∧ some s.id ≠ probe.locationId ∧
      REPLICATION_METAL ≤ s.resourceYield.Metal ∧
      REPLICATION_PLUTONIUM ≤ s.resourceYield.Plutonium)

/-- Body of processFocusReplication after the cooldown gate. -/
def processFocusReplicationAfterCooldown (probe : Probe)
    (systems : List SolarSystem) (currentSystem : Option SolarSystem) :
    Option BehaviorDecision :=
  let candidates := replicationCandidates probe systems
  let replicateDecision : Option BehaviorDecision := some
    { action := DecisionAction.replicate
    , reason := "Focus Replication: replicating at current system"
    , replicationThresholds := some
        { metal := REPLICATION_METAL, plutonium := REPLICATION_PLUTONIUM
        , time := 10000 } }
  match currentSystem with
  | some cs =>
    if REPLICATION_METAL ≤ probe.inventory.Metal ∧
        REPLICATION_PLUTONIUM ≤ probe.inventory.Plutonium then
      let postRepPlutonium := probe.inventory.Plutonium - REPLICATION_PLUTONIUM
      match nearestInf probe.position candidates with
      | some (_, minDist) =>
        let fuelNeeded := jsFloor (minDist * FUEL_CONSUMPTION_RATE)
        if postRepPlutonium < fuelNeeded ∧ 0 < cs.resourceYield.Plutonium then
          some { action := DecisionAction.mine_plutonium
               , reason := "Focus Replication: mining Plutonium to ensure post-replication travel" }
        else replicateDecision
      | none => replicateDecision
    else
      if probe.inventory.Metal < REPLICATION_METAL ∧ 0 < cs.resourceYield.Metal then
        some { action := DecisionAction.mine_metal
             , reason := "Focus Replication: mining Metal for replication" }
      else if probe.inventory.Plutonium < REPLICATION_PLUTONIUM ∧
          0 < cs.resourceYield.Plutonium then
        some { action := DecisionAction.mine_plutonium
             , reason := "Focus Replication: mining Plutonium for replication" }
      else
        match nearestInf probe.position candidates with
        | some (nearest, minDist) =>
          let fuelNeeded := jsFloor (minDist * FUEL_CONSUMPTION_RATE)
          if fuelNeeded ≤ probe.inventory.Plutonium then
            some { action := DecisionAction.travel
                 , targetSystemId := some nearest.id
                 , reason := "Focus Replication: traveling to " ++ nearest.name ++
                     " for resources" }
          else if 0 < cs.resourceYield.Plutonium then
            some { action := DecisionAction.mine_plutonium
                 , reason := "Focus Replication: refueling for travel to resource system" }
          else
            some { action := DecisionAction.idle
                 , reason := "Focus Replication: no viable replication or travel targets" }
        | none =>
          some { action := DecisionAction.idle
               , reason := "Focus Replication: no viable replication or travel targets" }
  | none =>
    match nearestInf probe.position candidates with
    | some (nearest, minDist) =>
      let fuelNeeded := jsFloor (minDist * FUEL_CONSUMPTION_RATE)
      if fuelNeeded ≤ probe.inventory.Plutonium then
        some { action := DecisionAction.travel
             , targetSystemId := some nearest.id
             , reason := "Focus Replication: traveling to " ++ nearest.name ++
                 " for resources" }
      else
        some { action := DecisionAction.idle
             , reason := "Focus Replication: no viable replication or travel targets" }
    | none =>
      some { action := DecisionAction.idle
           , reason := "Focus Replication: no viable replication or travel targets" }

/-- aiBehaviorSystem.processFocusReplication. -/
def processFocusReplication (probe : Probe) (systems : List SolarSystem)
    (currentSystem : Option SolarSystem) (lastReplicationTime : Option ℚ)
    (now : ℚ) : Option BehaviorDecision :=
  match lastReplicationTime with
  | some t =>
    if now - t < REPLICATION_COOLDOWN then
      some { action := DecisionAction.idle
           , reason := "Focus Replication: waiting for cooldown (" ++
               toString ⌈(REPLICATION_COOLDOWN - (now - t)) / 1000⌉ ++ "s)" }
    else processFocusReplicationAfterCooldown probe systems currentSystem
  | none => processFocusReplicationAfterCooldown probe systems currentSystem

/-- aiBehaviorSystem.processDefaultBehavior. -/
def processDefaultBehavior (probe : Probe) (currentSystem : Option SolarSystem)
    (previousState : Option ProbeState) : Option BehaviorDecision :=
  match currentSystem with
  | none => none
  | some cs =>
    let batchProgress := probe.miningBatchProgress.getD 0
    let stateToCheck := previousState.getD probe.state
    let currentlyMiningMetal := stateToCheck = ProbeState.MiningMetal
    let shouldSwitch := 10 ≤ batchProgress ∨ stateToCheck = ProbeState.Idle
    let targetResource : ResourceType :=
      if shouldSwitch then
        if currentlyMiningMetal then ResourceType.Plutonium else ResourceType.Metal
      else
        if currentlyMiningMetal then ResourceType.Metal else ResourceType.Plutonium
    if targetResource = ResourceType.Metal ∧ 0 < cs.resourceYield.Metal then
      some { action := DecisionAction.mine_metal
           , reason :=
               if shouldSwitch then
                 "Default behavior: switching to Metal (batch complete)"
               else
                 "Default behavior: mining Metal (" ++ toString batchProgress ++ "/10)" }
    else if targetResource = ResourceType.Plutonium ∧
        0 < cs.resourceYield.Plutonium then
      some { action := DecisionAction.mine_plutonium
           , reason :=
               if shouldSwitch then
                 "Default behavior: switching to Plutonium (batch complete)"
               else
                 "Default behavior: mining Plutonium (" ++ toString batchProgress ++ "/10)" }
    else if 0 < cs.resourceYield.Metal then
      some { action := DecisionAction.mine_metal
           , reason := "Default behavior: mining Metal (fallback)" }
    else if 0 < cs.resourceYield.Plutonium then
      some { action := DecisionAction.mine_plutonium
           , reason := "Default behavior: mining Plutonium (fallback)" }
    else
      some { action := DecisionAction.idle
           , reason := "Default behavior: all resources depleted" }

/-- aiBehaviorSystem.processFocusMining. -/
def processFocusMining (probe : Probe) (systems : List SolarSystem)
    (currentSystem : Option SolarSystem) : Option BehaviorDecision :=
  let afterLocal : Option BehaviorDecision :=
    let candidates := systems.filter
      (fun s => s.discovered = true ∧ some s.id ≠ probe.locationId ∧
        (100 < s.resourceYield.Metal ∨ 50 < s.resourceYield.Plutonium))
    if candidates.isEmpty then
      match currentSystem with
      | some cs => processDefaultBehavior probe (some cs) none
      | none => none
    else
      match nearestInf probe.position candidates with
      | some (nearest, minDist) =>
        let fuelNeeded := jsFloor (minDist * FUEL_CONSUMPTION_RATE)
        if fuelNeeded ≤ probe.inventory.Plutonium then
          some { action := DecisionAction.travel
               , targetSystemId := some nearest.id
               , reason := "Focus Mining: traveling to " ++ nearest.name ++
                   " (" ++ toString ⌊minDist⌋ ++ " LY)" }
        else
          match currentSystem with
          | some cs =>
            if 0 < cs.resourceYield.Plutonium then
              some { action := DecisionAction.mine_plutonium
                   , reason := "Focus Mining: refueling for next target" }
            else
              some { action := DecisionAction.idle
                   , reason := "Focus Mining: no viable targets" }
          | none =>
            some { action := DecisionAction.idle
                 , reason := "Focus Mining: no viable targets" }
      | none =>
        some { action := DecisionAction.idle
             , reason := "Focus Mining: no viable targets" }
  match currentSystem with
  | some cs =>
    if 0 < cs.resourceYield.Metal then
      some { action := DecisionAction.mine_metal
           , reason := "Focus Mining: extracting Metal" }
    else if 0 < cs.resourceYield.Plutonium then
      some { action := DecisionAction.mine_plutonium
           , reason := "Focus Mining: extracting Plutonium" }
    else afterLocal
  | none => afterLocal

/-- aiBehaviorSystem.processFocusExploring. -/
def processFocusExploring (probe : Probe) (systems : List SolarSystem)
    (currentSystem : Option SolarSystem) : Option BehaviorDecision :=
  let scanFresh : Option BehaviorDecision := some
    { action := DecisionAction.scan
    , reason := "Focus Exploring: scanning for new systems" }
  let firstArrival : Bool :=
    match currentSystem with
    | some cs => decide (probe.lastScannedSystemId ≠ some cs.id)
    | none => false
  if firstArrival then
    some { action := DecisionAction.scan
         , reason := "Focus Exploring: scanning new arrival" }
  else
    let unvisited := systems.filter
      (fun s => s.discovered = true ∧ s.visited = false ∧
        some s.id ≠ probe.locationId)
    if unvisited.isEmpty then scanFresh
    else
      match nearestInf probe.position unvisited with
      | some (nearest, minDist) =>
        let fuelNeeded := jsFloor (minDist * FUEL_CONSUMPTION_RATE)
        if fuelNeeded ≤ probe.inventory.Plutonium then
          some { action := DecisionAction.travel
               , targetSystemId := some nearest.id
               , reason := "Focus Exploring: visiting " ++ nearest.name }
        else
          match currentSystem with
          | some cs =>
            if 0 < cs.resourceYield.Plutonium then
              some { action := DecisionAction.mine_plutonium
                   , reason := "Focus Exploring: refueling" }
            else scanFresh
          | none => scanFresh
      | none => scanFresh

/-- aiBehaviorSystem.processFocusScience. -/
def processFocusScience (probe : Probe) (systems : List SolarSystem)
    (currentSystem : Option SolarSystem) (hasRelayAtCurrentSystem : Bool)
    (hasRelayUnlock : Bool) : Option BehaviorDecision :=
  let fallback : Option BehaviorDecision :=
    match currentSystem with
    | some cs => processDefaultBehavior probe (some cs) none
    | none => none
  let researchHere : Bool :=
    match currentSystem with
    | some cs => decide (0 < cs.scienceRemaining.getD 0)
    | none => false
  let deployHere : Bool :=
    match currentSystem with
    | some _ =>
      !hasRelayAtCurrentSystem && hasRelayUnlock &&
        decide (400 ≤ probe.inventory.Metal)
    | none => false
  if researchHere then
    match currentSystem with
    | some cs =>
      some { action := DecisionAction.research
           , reason := "Focus Science: extracting science from " ++ cs.name }
    | none => fallback
  else if deployHere then
    match currentSystem with
    | some cs =>
      some { action := DecisionAction.deploy_relay
           , reason := "Focus Science: deploying relay at " ++ cs.name }
    | none => fallback
  else
    let scienceSystems := systems.filter
      (fun s => s.discovered = true ∧ some s.id ≠ probe.locationId ∧
        5 < s.scienceRemaining.getD 0)
    if scienceSystems.isEmpty then fallback
    else
      match nearestInf probe.position scienceSystems with
      | some (nearest, minDist) =>
        let fuelNeeded := jsFloor (minDist * FUEL_CONSUMPTION_RATE)
        if fuelNeeded ≤ probe.inventory.Plutonium then
          some { action := DecisionAction.travel
               , targetSystemId := some nearest.id
               , reason := "Focus Science: traveling to " ++ nearest.name ++
                   " (" ++ toString (nearest.scienceRemaining.getD 0) ++
                   " sci remaining)" }
        else
          match currentSystem with
          | some cs =>
            if 0 < cs.resourceYield.Plutonium then
              some { action := DecisionAction.mine_plutonium
                   , reason := "Focus Science: refueling" }
            else fallback
          | none => fallback
      | none => fallback

/-- aiBehaviorSystem.processBehaviorMode; the relays argument carries the
relay station system ids. -/
def processBehaviorMode (probe : Probe) (systems : List SolarSystem)
    (relays : List String) (hasRelayUnlock : Bool)
    (lastReplicationTime : Option ℚ) (now : ℚ)
    (previousState : Option ProbeState) : Option BehaviorDecision :=
  let currentSystem := systems.find? (fun s => some s.id = probe.locationId)
  let hasRelayAtCurrentSystem :=
    match currentSystem with
    | some cs => relays.contains cs.id
    | none => false
  match probe.aiBehavior with
  | AIBehavior.FocusMining => processFocusMining probe systems currentSystem
  | AIBehavior.FocusExploring => processFocusExploring probe systems currentSystem
  | AIBehavior.FocusScience =>
    processFocusScience probe systems currentSystem hasRelayAtCurrentSystem
      hasRelayUnlock
  | AIBehavior.FocusReplication =>
    processFocusReplication probe systems currentSystem lastReplicationTime now
  | AIBehavior.NoneMode => processDefaultBehavior probe currentSystem previousState

-- ### src/logic/autonomySystem.ts

structure SystemChange where
  systemId : String
  changes : SystemPatch
deriving DecidableEq

structure AutonomyResult where
  probe : Probe
  systemChanges : List SystemChange := []
  shouldReplicate : Bool := false
  replicationThresholds : Option ReplicationThresholds := none
deriving DecidableEq

/-- Append a justification to the bounded decision log, keeping the last
ten entries. -/
def pushDecisionLog (probe : Probe) (reason : String) : Probe :=
  match probe.aiDecisionLog with
  | none => probe
  | some log =>
    let log1 := log ++ [reason]
    let log2 := if 10 < log1.length then log1.drop (log1.length - 10) else log1
    { probe with aiDecisionLog := some log2 }

/-- autonomySystem.processAutonomousProbe. The colonizedSystemIds argument
is accepted and ignored exactly as in the source. -/
def processAutonomousProbe (probe : Probe) (systems : List SolarSystem)
    (_colonizedSystemIds : List String) (now : ℚ) (relays : List String)
    (hasRelayUnlock : Bool) : AutonomyResult :=
  if probe.stats.autonomyLevel = 0 ∨ probe.isAutonomyEnabled = false then
    { probe := probe }
  else if probe.state = ProbeState.Traveling ∨
      probe.state = ProbeState.Replicating ∨
      probe.state = ProbeState.Exploring then
    { probe := probe }
  else
    let currentSystem := systems.find? (fun s => some s.id = probe.locationId)
    let previousState := probe.state
    let probe1 :=
      if probe.state = ProbeState.MiningMetal ∨
          probe.state = ProbeState.MiningPlutonium ∨
          probe.state = ProbeState.Scanning ∨
          probe.state = ProbeState.Researching then
        { probe with state := ProbeState.Idle, progress := 0, miningBuffer := 0 }
      else probe
    let systemChanges :=
      match currentSystem with
      | some cs =>
        if cs.analyzed = false then
          [{ systemId := cs.id, changes := analyzedPatch }]
        else []
      | none => []
    if probe1.locationId.isSome = true ∧
        probe1.lastScannedSystemId ≠ probe1.locationId then
      { probe := { probe1 with state := ProbeState.Scanning, progress := 0 }
      , systemChanges := systemChanges }
    else
      match processBehaviorMode probe1 systems relays hasRelayUnlock
          probe1.lastReplicationTime now (some previousState) with
      | none => { probe := probe1, systemChanges := systemChanges }
      | some decision =>
        let probe2 := pushDecisionLog probe1 decision.reason
        if probe2.aiBehavior = AIBehavior.FocusReplication ∧
            decision.action = DecisionAction.replicate then
          { probe := { probe2 with
              state := ProbeState.Replicating
              progress := 0
              lastReplicationTime := some now }
          , systemChanges := systemChanges
          , shouldReplicate := true
          , replicationThresholds := decision.replicationThresholds }
        else
          match decision.action with
          | DecisionAction.mine_metal =>
            let probe3 :=
              if previousState = ProbeState.MiningPlutonium then
                { probe2 with miningBatchProgress := some 0 }
              else probe2
            { probe := { probe3 with
                state := ProbeState.MiningMetal, progress := 0, miningBuffer := 0 }
            , systemChanges := systemChanges }
          | DecisionAction.mine_plutonium =>
            let probe3 :=
              if previousState = ProbeState.MiningMetal then
                { probe2 with miningBatchProgress := some 0 }
              else probe2
            { probe := { probe3 with
                state := ProbeState.MiningPlutonium, progress := 0, miningBuffer := 0 }
            , systemChanges := systemChanges }
          | DecisionAction.travel =>
            match decision.targetSystemId with
            | some tid =>
              match systems.find? (fun s => s.id = tid) with
              | some targetSystem =>
                let dist := hypot (targetSystem.position.x - probe2.position.x)
                  (targetSystem.position.y - probe2.position.y)
                let fuelNeeded := jsFloor (dist * FUEL_CONSUMPTION_RATE)
                if fuelNeeded ≤ probe2.inventory.Plutonium then
                  { probe := { probe2 with
                      state := ProbeState.Traveling
                      targetSystemId := some tid
                      progress := 0
                      inventory := { probe2.inventory with
                        Plutonium := probe2.inventory.Plutonium - fuelNeeded } }
                  , systemChanges := systemChanges }
                else { probe := probe2, systemChanges := systemChanges }
              | none => { probe := probe2, systemChanges := systemChanges }
            | none => { probe := probe2, systemChanges := systemChanges }
          | DecisionAction.scan =>
            { probe := { probe2 with state := ProbeState.Scanning, progress := 0 }
            , systemChanges := systemChanges }
          | DecisionAction.research =>
            { probe := { probe2 with state := ProbeState.Researching, progress := 0 }
            , systemChanges := systemChanges }
          | DecisionAction.deploy_relay =>
            { probe := probe2, systemChanges := systemChanges }
          | DecisionAction.idle =>
            { probe := probe2, systemChanges := systemChanges }
          | DecisionAction.replicate =>
            { probe := probe2, systemChanges := systemChanges }

-- ### src/App.tsx: the tick

/-- App.tsx applies autonomy systemChanges by looking the system up by id
in the working array. -/
def applySystemChanges (systems : List SolarSystem)
    (changes : List SystemChange) : List SolarSystem :=
  changes.foldl
    (fun acc c =>
      match findWithIndex (fun s => s.id = c.systemId) acc with
      | some (idx, s) => acc.set idx (c.changes.applyTo s)
      | none => acc)
    systems

/-- App.tsx applies a mining yield update in place at its index. -/
def applyYieldUpdate (systems : List SolarSystem) (u : Option YieldUpdate) :
    List SolarSystem :=
  match u with
  | none => systems
  | some u =>
    match systems.get? u.index with
    | some s =>
      systems.set u.index
        { s with resourceYield := s.resourceYield.set u.resourceType u.newYield }
    | none => systems

/-- Working state threaded through the probe loop of the tick. The
generatedSectors copy is carried along unchanged: the refactored tick in
App.tsx never inserts a key into it. -/
structure TickAcc where
  systems : List SolarSystem
  generatedSectors : List String
  colonized : List String
  finalProbes : List Probe
  createdProbes : List Probe
  scienceDelta : ℚ
  rIdx : ℕ
deriving DecidableEq

/-- The per-probe body of the tick loop in App.tsx. -/
def tickProbe (env : Env) (relays : List String) (hasRelayUnlock : Bool)
    (delta : ℚ) (now : ℤ) (earthPos : Coordinates) (acc : TickAcc)
    (probe : Probe) : TickAcc :=
  let autoEligible :=
    0 < probe.stats.autonomyLevel ∧ probe.isAutonomyEnabled = true ∧
      probe.state ≠ ProbeState.MiningMetal ∧
      probe.state ≠ ProbeState.MiningPlutonium
  let stepped :=
    if autoEligible then
      let r := processAutonomousProbe probe acc.systems acc.colonized (now : ℚ)
        relays hasRelayUnlock
      let acc1 := { acc with systems := applySystemChanges acc.systems r.systemChanges }
      match r.shouldReplicate, r.replicationThresholds with
      | true, some t =>
        let p := r.probe
        let bp : ProbeBlueprint :=
          { id := "auto-bp-" ++ toString now
          , name := p.model
          , stats := p.stats
          , cost := { Metal := t.metal, Plutonium := t.plutonium, time := t.time }
          , isCustom := true }
        let p2 := { p with
          state := ProbeState.Replicating
          progress := 0
          pendingBlueprint := some bp
          inventory :=
            { Metal := p.inventory.Metal - t.metal
            , Plutonium := p.inventory.Plutonium - t.plutonium } }
        let colonized1 :=
          match p2.locationId with
          | some l => acc1.colonized ++ [l]
          | none => acc1.colonized
        (p2, { acc1 with colonized := colonized1 })
      | _, _ => (r.probe, acc1)
    else (probe, acc)
  let probe1 := stepped.1
  let acc1 := stepped.2
  if probe1.state = ProbeState.Traveling ∧ probe1.targetSystemId.isSome = true ∧
      probe1.locationId.isSome = true then
    let r := processTravelingProbe probe1 acc1.systems delta
    { acc1 with
      systems := applySystemUpdates acc1.systems r.systemUpdates
      finalProbes := acc1.finalProbes ++ [r.probe] }
  else if probe1.state = ProbeState.Exploring ∧ probe1.heading.isSome = true then
    let r := processExploringProbe env acc1.rIdx probe1 acc1.systems
      acc1.generatedSectors earthPos delta now
    let systems1 := applySystemUpdates acc1.systems r.systemUpdates
    let systems2 := if r.sectorGenerated then systems1 ++ r.newSystems else systems1
    { acc1 with
      systems := systems2
      rIdx := acc1.rIdx + r.randConsumed
      finalProbes := acc1.finalProbes ++ [r.probe] }
  else if probe1.state = ProbeState.MiningMetal ∨
      probe1.state = ProbeState.MiningPlutonium then
    let r := processMiningProbe probe1 acc1.systems delta
    let systems1 := applyYieldUpdate acc1.systems r.systemYieldUpdate
    if r.shouldCheckAutonomy = true ∧ 0 < r.probe.stats.autonomyLevel ∧
        r.probe.isAutonomyEnabled = true then
      let r2 := processAutonomousProbe r.probe systems1 acc1.colonized (now : ℚ)
        relays hasRelayUnlock
      { acc1 with
        systems := applySystemChanges systems1 r2.systemChanges
        finalProbes := acc1.finalProbes ++ [r2.probe] }
    else
      { acc1 with
        systems := systems1
        finalProbes := acc1.finalProbes ++ [r.probe] }
  else if probe1.state = ProbeState.Replicating then
    let r := processReplicatingProbe env acc1.rIdx probe1 delta acc1.colonized now
    { acc1 with
      colonized := r.colonized
      rIdx := acc1.rIdx + r.randConsumed
      createdProbes := acc1.createdProbes ++ r.newProbes
      finalProbes := acc1.finalProbes ++ [r.probe] }
  else if probe1.state = ProbeState.Scanning then
    let r := processScanningProbe env acc1.rIdx probe1 acc1.systems
      acc1.generatedSectors earthPos delta now
    let systems1 := applySystemUpdates acc1.systems r.systemUpdates
    let systems2 := if r.sectorGenerated then systems1 ++ r.newSystems else systems1
    { acc1 with
      systems := systems2
      rIdx := acc1.rIdx + r.randConsumed
      finalProbes := acc1.finalProbes ++ [r.probe] }
  else if probe1.state = ProbeState.Researching then
    let r := processResearchingProbe probe1 acc1.systems delta
    { acc1 with
      systems := applySystemUpdates acc1.systems r.systemUpdates
      scienceDelta := acc1.scienceDelta + r.scienceDelta
      finalProbes := acc1.finalProbes ++ [r.probe] }
  else
    { acc1 with finalProbes := acc1.finalProbes ++ [probe1] }

/-- The tick body of App.tsx: seed the colonized set from every origin
system, locate Earth, fold the probe loop and commit the working copies.
Log strings and the fire-and-forget naming callback are not modelled. -/
def tick (env : Env) (delta : ℚ) (now : ℤ) (g : GameState) : GameState :=
  let colonized0 := g.probes.foldl
    (fun acc p =>
      match p.originSystemId with
      | some o => acc ++ [o]
      | none => acc)
    []
  let earthPos :=
    match g.systems.find? (fun s => s.id = "sys-earth") with
    | some s => s.position
    | none => { x := UNIVERSE_WIDTH / 2, y := UNIVERSE_HEIGHT / 2 }
  let hasRelayUnlock := g.purchasedUnlocks.contains "quantum_relay_network"
  let acc0 : TickAcc :=
    { systems := g.systems
    , generatedSectors := g.generatedSectors
    , colonized := colonized0
    , finalProbes := []
    , createdProbes := []
    , scienceDelta := 0
    , rIdx := 0 }
  let accF := g.probes.foldl (tickProbe env g.relays hasRelayUnlock delta now earthPos) acc0
  { g with
    systems := accF.systems
    probes := accF.finalProbes ++ accF.createdProbes
    generatedSectors := accF.generatedSectors
    science := g.science + accF.scienceDelta }

-- ### Command handlers (src/handlers/navigationHandlers.ts and the
-- operation handlers file)

/-- navigationHandlers.handleLaunch. Note the source validates only that
the selected probe, its current system and the target exist; it never
checks the probe state. -/
def handleLaunch (g : GameState) (targetSystemId : String) : GameState :=
  let probeOpt := g.probes.find? (fun p => some p.id = g.selectedProbeId)
  match probeOpt with
  | none => g
  | some probe =>
    match g.systems.find? (fun s => some s.id = probe.locationId),
        g.systems.find? (fun s => s.id = targetSystemId) with
    | some startSys, some targetSys =>
      let dist := ratSqrt
        ((targetSys.position.x - startSys.position.x) *
            (targetSys.position.x - startSys.position.x) +
          (targetSys.position.y - startSys.position.y) *
            (targetSys.position.y - startSys.position.y))
      let fuelNeeded := jsFloor (dist * FUEL_CONSUMPTION_RATE)
      let hasFuel := fuelNeeded ≤ probe.inventory.Plutonium
      let updatedProbe := { probe with
        state := ProbeState.Traveling
        targetSystemId := some targetSys.id
        inventory := { probe.inventory with
          Plutonium :=
            if hasFuel then probe.inventory.Plutonium - fuelNeeded
            else probe.inventory.Plutonium }
        progress := 0
        miningBuffer := 0
        isSolarSailing := !hasFuel }
      let logMsg :=
        if hasFuel then probe.name ++ " launching to " ++ targetSys.name ++ "."
        else probe.name ++ " deploying solar sails for slow transit to " ++
          targetSys.name ++ "."
      { g with
        probes := g.probes.map (fun p => if p.id = probe.id then updatedProbe else p)
        logs := g.logs ++ [logMsg] }
    | _, _ => g

/-- handleScan from the operation handlers: rejected as a no-op unless the
selected probe is Idle. -/
def handleScan (g : GameState) : GameState :=
  match g.probes.find? (fun p => some p.id = g.selectedProbeId) with
  | none => g
  | some probe =>
    if probe.state ≠ ProbeState.Idle then g
    else
      { g with
        probes := g.probes.map
          (fun p =>
            if p.id = probe.id then
              { p with state := ProbeState.Scanning, progress := 0 }
            else p)
        logs := g.logs ++ [probe.name ++ " initializing wide-band sensor sweep."] }

/-- handleStopOperation from the operation handlers. -/
def handleStopOperation (g : GameState) : GameState :=
  match g.probes.find? (fun p => some p.id = g.selectedProbeId) with
  | none => g
  | some probe =>
    if probe.state ≠ ProbeState.MiningMetal ∧
        probe.state ≠ ProbeState.MiningPlutonium ∧
        probe.state ≠ ProbeState.Replicating then g
    else
      let base := { probe with
        state := ProbeState.Idle, progress := 0, miningBuffer := 0 }
      let stepped :=
        match probe.pendingBlueprint with
        | some bp =>
          if probe.state = ProbeState.Replicating then
            ({ base with
                inventory :=
                  { Metal := probe.inventory.Metal + bp.cost.Metal
                  , Plutonium := probe.inventory.Plutonium + bp.cost.Plutonium }
                pendingBlueprint := none },
              probe.name ++ " halted replication. Resources refunded.")
          else (base, probe.name ++ " halted operations.")
        | none => (base, probe.name ++ " halted operations.")
      { g with
        probes := g.probes.map (fun p => if p.id = probe.id then stepped.1 else p)
        logs := g.logs ++ [stepped.2] }

/-- handleReplicate from the operation handlers: affordability is the only
validated precondition. -/
def handleReplicate (g : GameState) (blueprint : ProbeBlueprint) : GameState :=
  match g.probes.find? (fun p => some p.id = g.selectedProbeId) with
  | none => g
  | some parentProbe =>
    if parentProbe.inventory.Metal < blueprint.cost.Metal ∨
        parentProbe.inventory.Plutonium < blueprint.cost.Plutonium then
      { g with logs := g.logs ++ ["Replication failed: Insufficient resources."] }
    else
      let updated := { parentProbe with
        state := ProbeState.Replicating
        progress := 0
        miningBuffer := 0
        inventory :=
          { Metal := parentProbe.inventory.Metal - blueprint.cost.Metal
          , Plutonium := parentProbe.inventory.Plutonium - blueprint.cost.Plutonium }
        pendingBlueprint := some blueprint }
      { g with
        probes := g.probes.map (fun p => if p.id = parentProbe.id then updated else p)
        logs := g.logs ++
          [parentProbe.name ++ " starting fabrication of " ++ blueprint.name ++ "."] }

-- ### Concrete fixtures used by the scenario theorems

/-- A deterministic environment whose random stream is constantly r and
whose trigonometric oracles are exact for a zero heading. -/
def envConst (r : ℚ) : Env :=
  { rand := fun _ => r
  , cosDeg := fun d => if d = 0 then 1 else 0
  , sinDeg := fun _ => 0
  , atanDeg := fun _ _ => 0 }

def baseStats : ProbeStats :=
  { miningSpeed := 1, flightSpeed := 1, replicationSpeed := 1
  , scanRange := 300, scanSpeed := 1, autonomyLevel := 0 }

def sysScenB : SolarSystem :=
  { id := "sys-b", name := "Scenario B", position := { x := 0, y := 0 }
  , discovered := true, visited := true, analyzed := true
  , resources := { Metal := 50, Plutonium := 50 }
  , resourceYield := { Metal := 1000, Plutonium := 500 } }

def probeScenB : Probe :=
  { id := "p-b", name := "Miner", model := "Mark I"
  , state := ProbeState.MiningMetal
  , locationId := some "sys-b", targetSystemId := none
  , position := { x := 0, y := 0 }
  , inventory := { Metal := 100, Plutonium := 100 }
  , stats := baseStats, progress := 0, miningBuffer := 0
  , isAutonomyEnabled := false }

def homeScenC : SolarSystem :=
  { id := "home", name := "Home", position := { x := 0, y := 0 }
  , discovered := true, visited := true, analyzed := true
  , resources := { Metal := 50, Plutonium := 50 }
  , resourceYield := { Metal := 0, Plutonium := 100 } }

def farScenC : SolarSystem :=
  { id := "far", name := "Far", position := { x := 1000, y := 0 }
  , discovered := true, visited := false, analyzed := false
  , resources := { Metal := 50, Plutonium := 50 }
  , resourceYield := { Metal := 2000, Plutonium := 1000 } }

def probeScenC : Probe :=
  { id := "p-c", name := "Replicator", model := "Mark I"
  , state := ProbeState.Idle
  , locationId := some "home", targetSystemId := none
  , position := { x := 0, y := 0 }
  , inventory := { Metal := 600, Plutonium := 350 }
  , stats := baseStats, progress := 0, miningBuffer := 0
  , isAutonomyEnabled := true
  , aiBehavior := AIBehavior.FocusReplication }

def sysScenD : SolarSystem :=
  { id := "sys-d", name := "Scenario D", position := { x := 0, y := 0 }
  , discovered := true, visited := true, analyzed := true
  , resources := { Metal := 100, Plutonium := 100 }
  , resourceYield := { Metal := 1000, Plutonium := 500 } }

def probeScenD : Probe :=
  { id := "p-d", name := "Default AI", model := "Mark I"
  , state := ProbeState.MiningMetal
  , locationId := some "sys-d", targetSystemId := none
  , position := { x := 0, y := 0 }
  , inventory := { Metal := 0, Plutonium := 0 }
  , stats := { baseStats with autonomyLevel := 1 }
  , progress := 0, miningBuffer := 0
  , isAutonomyEnabled := true
  , aiBehavior := AIBehavior.NoneMode
  , miningBatchProgress := some 0 }

def stateScenD : GameState :=
  { systems := [sysScenD], probes := [probeScenD]
  , generatedSectors := ["0,0"], science := 0, relays := []
  , purchasedUnlocks := [], selectedProbeId := none, logs := [] }

def earthFix : SolarSystem :=
  { id := "sys-earth", name := "Earth", position := { x := 1000, y := 1000 }
  , discovered := true, visited := true, analyzed := true
  , resources := { Metal := 10, Plutonium := 10 }
  , resourceYield := { Metal := 1000, Plutonium := 500 } }

def probeExplorer : Probe :=
  { id := "p-x", name := "Explorer", model := "Mark I"
  , state := ProbeState.Exploring
  , locationId := none, targetSystemId := none
  , heading := some 0
  , position := { x := 2100, y := 100 }
  , inventory := { Metal := 0, Plutonium := 0 }
  , stats := baseStats, progress := 0, miningBuffer := 0
  , isAutonomyEnabled := false }

def stateExplorer : GameState :=
  { systems := [earthFix], probes := [probeExplorer]
  , generatedSectors := ["1,1"], science := 0, relays := []
  , purchasedUnlocks := [], selectedProbeId := none, logs := [] }

def sysLaunchA : SolarSystem :=
  { id := "sys-a8", name := "Alpha Dock", position := { x := 0, y := 0 }
  , discovered := true, visited := true, analyzed := true
  , resources := { Metal := 50, Plutonium := 50 }
  , resourceYield := { Metal := 100, Plutonium := 100 } }

def sysLaunchB : SolarSystem :=
  { id := "sys-b8", name := "Beta Dock", position := { x := 100, y := 0 }
  , discovered := true, visited := false, analyzed := false
  , resources := { Metal := 50, Plutonium := 50 }
  , resourceYield := { Metal := 100, Plutonium := 100 } }

def probeLaunch : Probe :=
  { id := "p-8", name := "Busy Miner", model := "Mark I"
  , state := ProbeState.MiningMetal
  , locationId := some "sys-a8", targetSystemId := none
  , position := { x := 0, y := 0 }
  , inventory := { Metal := 5, Plutonium := 1000 }
  , stats := baseStats, progress := 0, miningBuffer := 2
  , isAutonomyEnabled := false }

def stateLaunch : GameState :=
  { systems := [sysLaunchA, sysLaunchB], probes := [probeLaunch]
  , generatedSectors := [], science := 0, relays := []
  , purchasedUnlocks := [], selectedProbeId := some "p-8", logs := [] }

def bpRep : ProbeBlueprint :=
  { id := "bp-1", name := "Mark I", stats := baseStats
  , cost := { Metal := 10, Plutonium := 10, time := 1000 }
  , isCustom := false }

def probeRep : Probe :=
  { id := "p-9", name := "Parent", model := "Mark I"
  , state := ProbeState.Replicating
  , locationId := some "sys-e", targetSystemId := none
  , position := { x := 0, y := 0 }
  , inventory := { Metal := 0, Plutonium := 0 }
  , stats := baseStats, progress := 99, miningBuffer := 0
  , isAutonomyEnabled := false
  , pendingBlueprint := some bpRep }

def stateRep : GameState :=
  { systems := [], probes := [probeRep]
  , generatedSectors := [], science := 0, relays := []
  , purchasedUnlocks := [], selectedProbeId := none, logs := [] }

/-- The buffer value after one mining accumulation step. -/
def miningBufferAfter (probe : Probe) (s : SolarSystem) (delta : ℚ) : ℚ :=
  probe.miningBuffer +
    miningRatePerSecond s (miningResourceTypeOf probe) probe.stats * (delta / 1000)

/-- The whole-unit amount a mining step transfers, floor-clamped to the
remaining yield. -/
def miningTransfer (probe : Probe) (s : SolarSystem) (delta : ℚ) : ℚ :=
  min (jsFloor (miningBufferAfter probe s delta))
    (s.resourceYield.get (miningResourceTypeOf probe))

def sysSmall : SolarSystem :=
  { sysScenB with
    id := "sys-s"
    resourceYield := { Metal := 4, Plutonium := 500 } }

def probeSeq1 : Probe := { probeScenB with id := "q1", locationId := some "sys-s" }

def probeSeq2 : Probe := { probeScenB with id := "q2", locationId := some "sys-s" }

def stateSeq : GameState :=
  { systems := [sysSmall], probes := [probeSeq1, probeSeq2]
  , generatedSectors := [], science := 0, relays := []
  , purchasedUnlocks := [], selectedProbeId := none, logs := [] }

def probeRt : Probe := { probeScenB with id := "p-10", state := ProbeState.Idle }

def stateRt : GameState :=
  { systems := [sysScenB], probes := [probeRt]
  , generatedSectors := [], science := 0, relays := []
  , purchasedUnlocks := [], selectedProbeId := some "p-10", logs := [] }

-- ### C3: inventory non-negativity across a tick

/-- Both inventory entries of a probe are non-negative. -/
@[reducible] def invNonneg (p : Probe) : Prop :=
  0 ≤ p.inventory.Metal ∧ 0 ≤ p.inventory.Plutonium

/-- The pending blueprint, if any, grants a non-negative initial inventory
to the probe it will construct. -/
def bpInvOK (p : Probe) : Bool :=
  match p.pendingBlueprint with
  | none => true
  | some bp =>
    match bp.initialInventory with
    | none => true
    | some ii => decide (0 ≤ ii.Metal) && decide (0 ≤ ii.Plutonium)

/-- The continuous-position update of the exploring step. -/
def explorePos1 (env : Env) (probe : Probe) (heading : ℚ) (delta : ℚ) :
    Coordinates :=
  let hasFuel := 0 < probe.inventory.Plutonium
  let speed0 := 10 * probe.stats.flightSpeed
  let speed := if hasFuel then speed0 else speed0 * SOLAR_SAIL_SPEED_MULTIPLIER
  let moveDist := speed * (delta / 1000)
  { x := probe.position.x + env.cosDeg heading * moveDist
  , y := probe.position.y + env.sinDeg heading * moveDist }

/-- The move-and-burn stage of the exploring step: advance the position and
clamp the fuel deduction at zero. -/
def exploreBurn (env : Env) (probe : Probe) (heading : ℚ) (delta : ℚ) :
    Probe :=
  let hasFuel := 0 < probe.inventory.Plutonium
  let speed0 := 10 * probe.stats.flightSpeed
  let speed := if hasFuel then speed0 else speed0 * SOLAR_SAIL_SPEED_MULTIPLIER
  let moveDist := speed * (delta / 1000)
  let dx := env.cosDeg heading * moveDist
  let dy := env.sinDeg heading * moveDist
  let pos1 : Coordinates :=
    { x := probe.position.x + dx, y := probe.position.y + dy }
  let probe1 := { probe with position := pos1 }
  if hasFuel then
    let distTraveled := ratSqrt (dx * dx + dy * dy)
    let fuelCost := distTraveled * FUEL_CONSUMPTION_RATE
    { probe1 with inventory := { probe1.inventory with
        Plutonium := max 0 (probe1.inventory.Plutonium - fuelCost) } }
  else probe1

/-- The auto-diversion stage of the exploring step. -/
def exploreDivert (env : Env) (probe2 : Probe) (pos1 : Coordinates)
    (allSystems : List SolarSystem) (heading : ℚ) (nowq : ℚ) : Probe :=
  let divertDue :=
    0 < probe2.stats.autonomyLevel ∧ probe2.isAutonomyEnabled = true ∧
      timeGateOpen probe2.lastDiversionCheck nowq = true
  if divertDue then
    let probe2a := { probe2 with lastDiversionCheck := some nowq }
    let range := probe2.stats.scanRange
    let candidates := allSystems.filter
      (fun s => s.discovered = true ∧ (s.visited = false ∨ s.analyzed = false))
    match nearestWithin pos1 candidates range with
    | some tSys =>
      let tx := tSys.position.x - pos1.x
      let ty := tSys.position.y - pos1.y
      let targetHeading0 := env.atanDeg ty tx
      let targetHeading :=
        if targetHeading0 < 0 then targetHeading0 + 360 else targetHeading0
      let diff0 := |targetHeading - heading|
      let diff := if 180 < diff0 then 360 - diff0 else diff0
      let turnCost := diff * TURN_COST_PER_DEGREE
      let probe2b := { probe2a with heading := some targetHeading }
      if turnCost ≤ probe2b.inventory.Plutonium then
        { probe2b with inventory := { probe2b.inventory with
            Plutonium := probe2b.inventory.Plutonium - turnCost } }
      else
        { probe2b with
          inventory := { probe2b.inventory with Plutonium := 0 }
          isSolarSailing := true }
    | none => probe2a
  else probe2

/-- The low-fuel safety stage of the exploring step. -/
def exploreSafety (env : Env) (probe3 : Probe) (pos1 : Coordinates)
    (allSystems : List SolarSystem) (hasFuel : Prop) [Decidable hasFuel]
    (nowq : ℚ) : Probe :=
  let safetyDue :=
    hasFuel ∧ timeGateOpen probe3.lastSafetyCheck nowq = true
  if safetyDue then
    let probe3a := { probe3 with lastSafetyCheck := some nowq }
    let safeSystems := allSystems.filter (fun s => s.discovered = true)
    match nearestInf pos1 safeSystems with
    | some (nearest, minDist) =>
      let travelReturnCost := minDist * FUEL_CONSUMPTION_RATE
      let ddx := nearest.position.x - pos1.x
      let ddy := nearest.position.y - pos1.y
      let targetHeading0 := env.atanDeg ddy ddx
      let targetHeading :=
        if targetHeading0 < 0 then targetHeading0 + 360 else targetHeading0
      let diff0 := |targetHeading - (probe3a.heading.getD 0)|
      let diff := if 180 < diff0 then 360 - diff0 else diff0
      let turnReturnCost := diff * TURN_COST_PER_DEGREE
      let totalReturnCost := travelReturnCost + turnReturnCost
      if probe3a.inventory.Plutonium < totalReturnCost * (6 / 5) then
        { probe3a with
          heading := some targetHeading
          inventory := { probe3a.inventory with
            Plutonium := max 0 (probe3a.inventory.Plutonium - turnReturnCost) } }
      else probe3a
    | none => probe3a
  else probe3

/-- The probe-loop invariant: every committed and every newly created
probe so far has a non-negative inventory. -/
def accOK (acc : TickAcc) : Prop :=
  (∀ q ∈ acc.finalProbes, invNonneg q) ∧
  (∀ q ∈ acc.createdProbes, invNonneg q)

theorem ratSqrt_nonneg (q : ℚ) : 0 ≤ ratSqrt q := by
  unfold ratSqrt
  split
  · exact le_refl 0
  · dsimp only
    split
    · positivity
    · positivity

theorem hypot_nonneg (dx dy : ℚ) : 0 ≤ hypot dx dy := ratSqrt_nonneg _

-- ### Claim theorems

/-- C5: with yield.Metal 1000, Metal abundance 50, miningSpeed 1 and base
rate 2, the mining rate is one unit per second; a 3500 ms tick raises the
buffer to 3.5, transfers floor(3.5) = 3 whole units into the inventory,
keeps 0.5 in the buffer and leaves the system yield at 997. -/
theorem mining_scenario_rate_and_transfer :
    miningRatePerSecond sysScenB ResourceType.Metal probeScenB.stats = 1 ∧
    probeScenB.miningBuffer +
      miningRatePerSecond sysScenB ResourceType.Metal probeScenB.stats *
        (3500 / 1000) = 7 / 2 ∧
    (processMiningProbe probeScenB [sysScenB] 3500).probe.inventory.Metal =
      probeScenB.inventory.Metal + 3 ∧
    (processMiningProbe probeScenB [sysScenB] 3500).probe.miningBuffer = 1 / 2 ∧
    (processMiningProbe probeScenB [sysScenB] 3500).systemYieldUpdate =
      some { index := 0, resourceType := ResourceType.Metal, newYield := 997 } := by
  decide

/-- C6: under FocusReplication with 600 Metal and 350 Plutonium in hand,
thresholds met, and the nearest qualifying system 1000 units away at
fuelRate 0.2, the fuel needed is floor(200) = 200 while post-replication
Plutonium is 50, so the decision is mine_plutonium, not replicate. -/
theorem focusReplication_checks_postReplication_fuel :
    jsFloor (1000 * FUEL_CONSUMPTION_RATE) = 200 ∧
    probeScenC.inventory.Plutonium - REPLICATION_PLUTONIUM = 50 ∧
    processFocusReplication probeScenC [homeScenC, farScenC] (some homeScenC)
        none 0 =
      some { action := DecisionAction.mine_plutonium
           , reason := "Focus Replication: mining Plutonium to ensure post-replication travel" } := by
  decide

/-- C7: the Default behavior never alternates in batches of ten. An
eligible autonomous probe in MiningMetal at a system holding both
resources transfers twenty whole units in one tick, yet stays in
MiningMetal with its batch counter untouched: the tick skips autonomy for
mining states, the mining result carries no recheck flag, and nothing ever
increments miningBatchProgress, so the promised switch at ten units cannot
happen. -/
theorem defaultBehavior_no_batch_switch :
    (tick (envConst 0) 10000 0 stateScenD).probes.map
        (fun p => (p.state, p.inventory.Metal, p.miningBatchProgress)) =
      [(ProbeState.MiningMetal, 20, some 0)] ∧
    (processMiningProbe probeScenD [sysScenD] 10000).shouldCheckAutonomy = false := by
  decide

/-- C1: sector generation is not idempotent per key in the shipped tick.
An exploring probe sitting in ungenerated sector 2,0 triggers generation
on the first tick, but the key is never inserted into the generated-set,
so the immediately following tick generates fresh systems for the very
same sector again. -/
theorem sectorGeneration_regenerates_each_tick :
    (tick (envConst (1 / 2)) 1000 0 stateExplorer).systems.length = 3 ∧
    (tick (envConst (1 / 2)) 1000 0 stateExplorer).generatedSectors = ["1,1"] ∧
    (tick (envConst (1 / 2)) 1000 1000
        (tick (envConst (1 / 2)) 1000 0 stateExplorer)).systems.length = 5 ∧
    (tick (envConst (1 / 2)) 1000 1000
        (tick (envConst (1 / 2)) 1000 0 stateExplorer)).generatedSectors =
      ["1,1"] ∧
    (stateExplorer.probes.map (fun p => sectorKeyOf p.position) = ["2,0"] ∧
      (tick (envConst (1 / 2)) 1000 0 stateExplorer).probes.map
          (fun p => sectorKeyOf p.position) = ["2,0"]) := by
  decide

/-- C8 counterexample: the launch handler never validates that the probe
is Idle. A probe in MiningMetal is relaunched: its state becomes
Traveling, a target is set and travel fuel is deducted, so launch on a
non-Idle probe is not a no-op. -/
theorem handleLaunch_nonIdle_not_noop :
    probeLaunch.state ≠ ProbeState.Idle ∧
    (handleLaunch stateLaunch "sys-b8").probes.map
        (fun p => (p.state, p.targetSystemId, p.inventory.Plutonium)) =
      [(ProbeState.Traveling, some "sys-b8", 980)] := by
  decide

/-- C9 counterexample: the tick is not deterministic in the claimed sense
even with autonomy disabled on every probe. A replication completing
during the tick draws Math.random for the new probe identity, so two runs
from the identical state and delta that draw different values produce
different worlds. -/
theorem tick_differs_under_different_randomness :
    tick (envConst 0) 1000 0 stateRep ≠ tick (envConst (1 / 2)) 1000 0 stateRep := by
  decide

-- ### Groundwork lemmas

theorem ResourceMap.get_set_self (m : ResourceMap) (rt : ResourceType) (v : ℚ) :
    (m.set rt v).get rt = v := by
  cases rt <;> rfl

theorem ResourceMap.nonneg_set (m : ResourceMap) (rt : ResourceType) (v : ℚ)
    (hm : 0 ≤ m.Metal ∧ 0 ≤ m.Plutonium) (hv : 0 ≤ v) :
    0 ≤ (m.set rt v).Metal ∧ 0 ≤ (m.set rt v).Plutonium := by
  cases rt
  · exact ⟨hv, hm.2⟩
  · exact ⟨hm.1, hv⟩

theorem find?_enumFrom_spec (p : α → Prop) [DecidablePred p] :
    ∀ (l : List α) (n i : ℕ) (a : α),
      (l.enumFrom n).find? (fun x => decide (p x.2)) = some (i, a) →
      n ≤ i ∧ l.get? (i - n) = some a ∧ p a := by
  intro l
  induction l with
  | nil => intro n i a h; simp [List.find?] at h
  | cons b t ih =>
    intro n i a h
    rw [List.enumFrom_cons, List.find?] at h
    by_cases hb : p b
    · simp only [decide_eq_true hb] at h
      obtain ⟨hi, ha⟩ := Prod.mk.injEq .. ▸ Option.some.inj h
      subst hi; subst ha
      exact ⟨le_refl n, by simp, hb⟩
    · simp only [decide_eq_false hb] at h
      obtain ⟨hni, hget, hpa⟩ := ih (n + 1) i a h
      refine ⟨by omega, ?_, hpa⟩
      have : i - n = (i - (n + 1)) + 1 := by omega
      rw [this]
      simpa using hget

theorem findWithIndex_spec (p : α → Prop) [DecidablePred p] (l : List α)
    (i : ℕ) (a : α) (h : findWithIndex p l = some (i, a)) :
    l.get? i = some a ∧ p a := by
  have := find?_enumFrom_spec p l 0 i a h
  simpa using this.2

theorem processMiningProbe_eq_noSystem (probe : Probe)
    (systems : List SolarSystem) (delta : ℚ)
    (hfind : findWithIndex (fun s => some s.id = probe.locationId) systems = none) :
    processMiningProbe probe systems delta = { probe := probe } := by
  unfold processMiningProbe
  rw [hfind]

theorem processMiningProbe_eq_depleted (probe : Probe)
    (systems : List SolarSystem) (delta : ℚ) (i : ℕ) (s : SolarSystem)
    (hfind : findWithIndex (fun s => some s.id = probe.locationId) systems =
      some (i, s))
    (hy : ¬ 0 < s.resourceYield.get (miningResourceTypeOf probe)) :
    processMiningProbe probe systems delta =
      { probe := { probe with
          state := ProbeState.Idle, progress := 0, miningBuffer := 0 } } := by
  unfold processMiningProbe
  rw [hfind]
  dsimp only
  rw [if_neg hy]

theorem processMiningProbe_eq_accumulate (probe : Probe)
    (systems : List SolarSystem) (delta : ℚ) (i : ℕ) (s : SolarSystem)
    (hfind : findWithIndex (fun s => some s.id = probe.locationId) systems =
      some (i, s))
    (hy : 0 < s.resourceYield.get (miningResourceTypeOf probe))
    (hb : ¬ 1 ≤ miningBufferAfter probe s delta) :
    processMiningProbe probe systems delta =
      { probe := { probe with
          miningBuffer := miningBufferAfter probe s delta
          progress := min (miningBufferAfter probe s delta * 100) 100 } } := by
  unfold miningBufferAfter at hb
  unfold processMiningProbe
  rw [hfind]
  dsimp only
  rw [if_pos hy, if_neg hb]
  rfl

theorem processMiningProbe_eq_transfer (probe : Probe)
    (systems : List SolarSystem) (delta : ℚ) (i : ℕ) (s : SolarSystem)
    (hfind : findWithIndex (fun s => some s.id = probe.locationId) systems =
      some (i, s))
    (hy : 0 < s.resourceYield.get (miningResourceTypeOf probe))
    (hb : 1 ≤ miningBufferAfter probe s delta) :
    processMiningProbe probe systems delta =
      { probe := { probe with
          inventory := probe.inventory.set (miningResourceTypeOf probe)
            (probe.inventory.get (miningResourceTypeOf probe) +
              miningTransfer probe s delta)
          miningBuffer := miningBufferAfter probe s delta -
            jsFloor (miningBufferAfter probe s delta)
          progress := min ((miningBufferAfter probe s delta -
            jsFloor (miningBufferAfter probe s delta)) * 100) 100 }
      , systemYieldUpdate := some
          { index := i
          , resourceType := miningResourceTypeOf probe
          , newYield := s.resourceYield.get (miningResourceTypeOf probe) -
              miningTransfer probe s delta } } := by
  unfold miningBufferAfter at hb
  unfold processMiningProbe
  rw [hfind]
  dsimp only
  rw [if_pos hy, if_pos hb]
  rfl

/-- Shape of a successful mining yield update: it addresses a real system,
the entry guards held, the new yield subtracts exactly the floor-clamped
transfer and the probe is credited the same amount. -/
theorem processMiningProbe_update_form (probe : Probe)
    (systems : List SolarSystem) (delta : ℚ) (u : YieldUpdate)
    (hu : (processMiningProbe probe systems delta).systemYieldUpdate = some u) :
    ∃ s, systems.get? u.index = some s ∧
      u.resourceType = miningResourceTypeOf probe ∧
      0 < s.resourceYield.get (miningResourceTypeOf probe) ∧
      1 ≤ miningBufferAfter probe s delta ∧
      u.newYield = s.resourceYield.get (miningResourceTypeOf probe) -
        miningTransfer probe s delta ∧
      (processMiningProbe probe systems delta).probe.inventory.get
          (miningResourceTypeOf probe) =
        probe.inventory.get (miningResourceTypeOf probe) +
          miningTransfer probe s delta := by
  cases hfind : findWithIndex (fun s => some s.id = probe.locationId) systems with
  | none =>
    rw [processMiningProbe_eq_noSystem probe systems delta hfind] at hu
    cases hu
  | some pair =>
    obtain ⟨i, s⟩ := pair
    by_cases hy : 0 < s.resourceYield.get (miningResourceTypeOf probe)
    · by_cases hb : 1 ≤ miningBufferAfter probe s delta
      · rw [processMiningProbe_eq_transfer probe systems delta i s hfind hy hb] at hu
        dsimp only at hu
        obtain rfl := (Option.some.inj hu).symm
        refine ⟨s, (findWithIndex_spec _ systems i s hfind).1, rfl, hy, hb, rfl, ?_⟩
        rw [processMiningProbe_eq_transfer probe systems delta i s hfind hy hb]
        dsimp only
        rw [ResourceMap.get_set_self]
      · rw [processMiningProbe_eq_accumulate probe systems delta i s hfind hy hb] at hu
        cases hu
    · rw [processMiningProbe_eq_depleted probe systems delta i s hfind hy] at hu
      cases hu

theorem miningTransfer_nonneg (probe : Probe) (s : SolarSystem) (delta : ℚ)
    (hy : 0 < s.resourceYield.get (miningResourceTypeOf probe))
    (hb : 1 ≤ miningBufferAfter probe s delta) :
    0 ≤ miningTransfer probe s delta := by
  have hf1 : (1 : ℚ) ≤ jsFloor (miningBufferAfter probe s delta) := by
    unfold jsFloor
    exact_mod_cast Int.le_floor.mpr (by exact_mod_cast hb)
  exact le_min (by linarith) (le_of_lt hy)

/-- C4: yields never increase across the mining step and its application
to the world, and a transfer, when one happens, is exactly
min(floor(buffer), remaining yield): the new yield subtracts it, stays
nonnegative and never exceeds the pre-extraction yield, the probe gains
the same amount, and the amount is an integer whenever the yield was. -/
theorem mining_yield_conservation (probe : Probe) (systems : List SolarSystem)
    (delta : ℚ) :
    (∀ j s s1, systems.get? j = some s →
      (applyYieldUpdate systems
          (processMiningProbe probe systems delta).systemYieldUpdate).get? j =
        some s1 →
      s1.resourceYield.Metal ≤ s.resourceYield.Metal ∧
        s1.resourceYield.Plutonium ≤ s.resourceYield.Plutonium) ∧
    (∀ u, (processMiningProbe probe systems delta).systemYieldUpdate = some u →
      ∃ s, systems.get? u.index = some s ∧
        u.newYield = s.resourceYield.get (miningResourceTypeOf probe) -
          miningTransfer probe s delta ∧
        0 ≤ u.newYield ∧
        u.newYield ≤ s.resourceYield.get (miningResourceTypeOf probe) ∧
        (processMiningProbe probe systems delta).probe.inventory.get
            (miningResourceTypeOf probe) =
          probe.inventory.get (miningResourceTypeOf probe) +
            miningTransfer probe s delta ∧
        (∀ n : ℤ, s.resourceYield.get (miningResourceTypeOf probe) = (n : ℚ) →
          ∃ m : ℤ, miningTransfer probe s delta = (m : ℚ))) := by
  have core : ∀ u, (processMiningProbe probe systems delta).systemYieldUpdate =
        some u →
      ∃ s, systems.get? u.index = some s ∧
        u.resourceType = miningResourceTypeOf probe ∧
        0 ≤ u.newYield ∧
        u.newYield ≤ s.resourceYield.get (miningResourceTypeOf probe) ∧
        u.newYield = s.resourceYield.get (miningResourceTypeOf probe) -
          miningTransfer probe s delta := by
    intro u hu
    obtain ⟨s, hget, hrt, hy, hb, hnew, _⟩ :=
      processMiningProbe_update_form probe systems delta u hu
    refine ⟨s, hget, hrt, ?_, ?_, hnew⟩
    · rw [hnew]
      exact sub_nonneg.mpr (min_le_right _ _)
    · rw [hnew]
      exact sub_le_self _ (miningTransfer_nonneg probe s delta hy hb)
  constructor
  · intro j s s1 hs hs1
    cases hu : (processMiningProbe probe systems delta).systemYieldUpdate with
    | none =>
      rw [hu] at hs1
      unfold applyYieldUpdate at hs1
      dsimp only at hs1
      rw [hs] at hs1
      obtain rfl := Option.some.inj hs1
      exact ⟨le_refl _, le_refl _⟩
    | some u =>
      obtain ⟨s0, hget0, hrt, hnn, hle, hform⟩ := core u hu
      rw [hu] at hs1
      unfold applyYieldUpdate at hs1
      dsimp only at hs1
      rw [hget0] at hs1
      dsimp only at hs1
      by_cases hij : u.index = j
      · subst hij
        have hlen : u.index < systems.length := by
          by_contra hc
          push_neg at hc
          rw [List.get?_eq_none.mpr hc] at hget0
          cases hget0
        rw [List.get?_set_eq_of_lt _ hlen] at hs1
        obtain rfl := Option.some.inj hs1
        rw [hs] at hget0
        obtain rfl := Option.some.inj hget0
        rw [hrt]
        cases hmrt : miningResourceTypeOf probe <;> rw [hmrt] at hle <;>
          refine ⟨?_, ?_⟩ <;>
          simp only [ResourceMap.set, ResourceMap.get] at hle ⊢ <;>
          first
            | exact le_refl _
            | exact hle
      · rw [List.get?_set_ne _ _ hij] at hs1
        rw [hs] at hs1
        obtain rfl := Option.some.inj hs1
        exact ⟨le_refl _, le_refl _⟩
  · intro u hu
    obtain ⟨s, hget, hrt, hnn, hle, hform⟩ := core u hu
    obtain ⟨s2, hget2, _, _, _, _, hinv⟩ :=
      processMiningProbe_update_form probe systems delta u hu
    rw [hget] at hget2
    obtain rfl := Option.some.inj hget2
    refine ⟨s, hget, hform, hnn, hle, hinv, ?_⟩
    intro n hyn
    refine ⟨min ⌊miningBufferAfter probe s delta⌋ n, ?_⟩
    unfold miningTransfer
    rw [hyn]
    unfold jsFloor
    push_cast
    rfl

/-- Witness for C4 at the Scenario B input: the update is real, the new
yield is bounded by the old, and the probe is credited the clamped
transfer. -/
theorem mining_yield_conservation_witness :
    (0 : ℚ) ≤ 997 ∧ (997 : ℚ) ≤ 1000 ∧
    (processMiningProbe probeScenB [sysScenB] 3500).probe.inventory.get
        (miningResourceTypeOf probeScenB) =
      probeScenB.inventory.get (miningResourceTypeOf probeScenB) +
        miningTransfer probeScenB sysScenB 3500 := by
  obtain ⟨s, hget, hform, hnn, hle, hinv, hint⟩ :=
    (mining_yield_conservation probeScenB [sysScenB] 3500).2
      { index := 0, resourceType := ResourceType.Metal, newYield := 997 }
      (by decide)
  have hs : s = sysScenB := by
    have := hget
    simp at this
    exact this.symm
  subst hs
  exact ⟨hnn, hle, hinv⟩

theorem processMiningProbe_noRecheck (probe : Probe)
    (systems : List SolarSystem) (delta : ℚ) :
    (processMiningProbe probe systems delta).shouldCheckAutonomy = false := by
  cases hfind : findWithIndex (fun s => some s.id = probe.locationId) systems with
  | none => rw [processMiningProbe_eq_noSystem probe systems delta hfind]
  | some pair =>
    obtain ⟨i, s⟩ := pair
    by_cases hy : 0 < s.resourceYield.get (miningResourceTypeOf probe)
    · by_cases hb : 1 ≤ miningBufferAfter probe s delta
      · rw [processMiningProbe_eq_transfer probe systems delta i s hfind hy hb]
      · rw [processMiningProbe_eq_accumulate probe systems delta i s hfind hy hb]
    · rw [processMiningProbe_eq_depleted probe systems delta i s hfind hy]

/-- For a probe in a mining state the tick body reduces to the mining
processor followed by the yield commit: autonomy is skipped up front and
the recheck flag is never set. -/
theorem tickProbe_mining (env : Env) (relays : List String) (hru : Bool)
    (delta : ℚ) (now : ℤ) (earthPos : Coordinates) (acc : TickAcc)
    (probe : Probe)
    (h : probe.state = ProbeState.MiningMetal ∨
      probe.state = ProbeState.MiningPlutonium) :
    tickProbe env relays hru delta now earthPos acc probe =
      { acc with
        systems := applyYieldUpdate acc.systems
          (processMiningProbe probe acc.systems delta).systemYieldUpdate
        finalProbes := acc.finalProbes ++
          [(processMiningProbe probe acc.systems delta).probe] } := by
  have hauto : ¬(0 < probe.stats.autonomyLevel ∧ probe.isAutonomyEnabled = true ∧
      probe.state ≠ ProbeState.MiningMetal ∧
      probe.state ≠ ProbeState.MiningPlutonium) := by
    rcases h with h | h <;> simp [h]
  have hT : ¬(probe.state = ProbeState.Traveling ∧
      probe.targetSystemId.isSome = true ∧ probe.locationId.isSome = true) := by
    rcases h with h | h <;> simp [h]
  have hE : ¬(probe.state = ProbeState.Exploring ∧ probe.heading.isSome = true) := by
    rcases h with h | h <;> simp [h]
  have hRe : ¬((processMiningProbe probe acc.systems delta).shouldCheckAutonomy = true ∧
      0 < (processMiningProbe probe acc.systems delta).probe.stats.autonomyLevel ∧
      (processMiningProbe probe acc.systems delta).probe.isAutonomyEnabled = true) := by
    simp [processMiningProbe_noRecheck]
  unfold tickProbe
  dsimp only
  rw [if_neg hauto]
  dsimp only
  rw [if_neg hT, if_neg hE, if_pos h, if_neg hRe]

/-- C2: probes are processed in list order within one tick, and system
mutations commit between probes. With two probes docked at the same
system, both in MiningMetal, the first transfers t1 clamped against the
original yield and the second transfers t2 clamped against the yield
already decremented by t1; the final yield is the original minus both. -/
theorem tick_mining_sequential_visibility (env : Env) (delta : ℚ) (now : ℤ)
    (g : GameState) (p1 p2 : Probe) (s : SolarSystem) (t1 t2 : ℚ)
    (hg : g.probes = [p1, p2]) (hsys : g.systems = [s])
    (h1 : p1.state = ProbeState.MiningMetal)
    (h2 : p2.state = ProbeState.MiningMetal)
    (hl1 : p1.locationId = some s.id) (hl2 : p2.locationId = some s.id)
    (hy : 0 < s.resourceYield.Metal)
    (hb1 : 1 ≤ p1.miningBuffer +
      miningRatePerSecond s ResourceType.Metal p1.stats * (delta / 1000))
    (hb2 : 1 ≤ p2.miningBuffer +
      miningRatePerSecond s ResourceType.Metal p2.stats * (delta / 1000))
    (ht1 : t1 = min (jsFloor (p1.miningBuffer +
        miningRatePerSecond s ResourceType.Metal p1.stats * (delta / 1000)))
      s.resourceYield.Metal)
    (ht2 : t2 = min (jsFloor (p2.miningBuffer +
        miningRatePerSecond s ResourceType.Metal p2.stats * (delta / 1000)))
      (s.resourceYield.Metal - t1))
    (hrem : t1 < s.resourceYield.Metal) :
    (tick env delta now g).probes.map (fun p => p.inventory.Metal) =
      [p1.inventory.Metal + t1, p2.inventory.Metal + t2] ∧
    (tick env delta now g).systems.map (fun sys => sys.resourceYield.Metal) =
      [s.resourceYield.Metal - t1 - t2] := by
  have mrt1 : miningResourceTypeOf p1 = ResourceType.Metal := by
    unfold miningResourceTypeOf
    rw [if_pos h1]
  have mrt2 : miningResourceTypeOf p2 = ResourceType.Metal := by
    unfold miningResourceTypeOf
    rw [if_pos h2]
  -- step of the first probe against the original system
  have hfind1 : findWithIndex (fun q => some q.id = p1.locationId) [s] =
      some (0, s) := by
    unfold findWithIndex
    simp [List.find?, hl1]
  have hy1 : 0 < s.resourceYield.get (miningResourceTypeOf p1) := by
    rw [mrt1]; exact hy
  have hbb1 : 1 ≤ miningBufferAfter p1 s delta := by
    unfold miningBufferAfter
    rw [mrt1]; exact hb1
  have e1 := processMiningProbe_eq_transfer p1 [s] delta 0 s hfind1 hy1 hbb1
  have htr1 : miningTransfer p1 s delta = t1 := by
    unfold miningTransfer miningBufferAfter
    rw [mrt1, ht1]
    rfl
  -- the system after the first commit
  have hs1 : applyYieldUpdate [s]
      (processMiningProbe p1 [s] delta).systemYieldUpdate =
      [{ s with resourceYield := (s.resourceYield.set (miningResourceTypeOf p1)
          (s.resourceYield.get (miningResourceTypeOf p1) -
            miningTransfer p1 s delta)) }] := by
    rw [e1]
    unfold applyYieldUpdate
    rfl
  have hs1' : applyYieldUpdate [s]
      (processMiningProbe p1 [s] delta).systemYieldUpdate =
      [{ s with resourceYield :=
          { Metal := s.resourceYield.Metal - t1
          , Plutonium := s.resourceYield.Plutonium } }] := by
    rw [hs1, mrt1, htr1]
    rfl
  -- step of the second probe against the committed system
  have hfind2 : findWithIndex (fun q => some q.id = p2.locationId)
      [{ s with resourceYield :=
          { Metal := s.resourceYield.Metal - t1
          , Plutonium := s.resourceYield.Plutonium } }] =
      some (0, { s with resourceYield :=
          { Metal := s.resourceYield.Metal - t1
          , Plutonium := s.resourceYield.Plutonium } }) := by
    unfold findWithIndex
    simp [List.find?, hl2]
  have hy2 : 0 < ({ s with resourceYield :=
      { Metal := s.resourceYield.Metal - t1
      , Plutonium := s.resourceYield.Plutonium } } : SolarSystem).resourceYield.get
      (miningResourceTypeOf p2) := by
    rw [mrt2]
    show 0 < s.resourceYield.Metal - t1
    linarith
  have hbb2 : 1 ≤ miningBufferAfter p2
      { s with resourceYield :=
          { Metal := s.resourceYield.Metal - t1
          , Plutonium := s.resourceYield.Plutonium } } delta := by
    unfold miningBufferAfter
    rw [mrt2]
    exact hb2
  have e2 := processMiningProbe_eq_transfer p2
    [{ s with resourceYield :=
        { Metal := s.resourceYield.Metal - t1
        , Plutonium := s.resourceYield.Plutonium } }] delta 0
    { s with resourceYield :=
        { Metal := s.resourceYield.Metal - t1
        , Plutonium := s.resourceYield.Plutonium } } hfind2 hy2 hbb2
  have htr2 : miningTransfer p2
      { s with resourceYield :=
          { Metal := s.resourceYield.Metal - t1
          , Plutonium := s.resourceYield.Plutonium } } delta = t2 := by
    unfold miningTransfer miningBufferAfter
    rw [mrt2, ht2]
    rfl
  -- assemble the tick over the two-probe fold
  have htick : (tick env delta now g).probes =
      [(processMiningProbe p1 [s] delta).probe,
        (processMiningProbe p2
          [{ s with resourceYield :=
              { Metal := s.resourceYield.Metal - t1
              , Plutonium := s.resourceYield.Plutonium } }] delta).probe] ∧
      (tick env delta now g).systems =
        applyYieldUpdate
          [{ s with resourceYield :=
              { Metal := s.resourceYield.Metal - t1
              , Plutonium := s.resourceYield.Plutonium } }]
          (processMiningProbe p2
            [{ s with resourceYield :=
                { Metal := s.resourceYield.Metal - t1
                , Plutonium := s.resourceYield.Plutonium } }] delta).systemYieldUpdate := by
    unfold tick
    dsimp only
    rw [hg, hsys]
    rw [List.foldl_cons, List.foldl_cons, List.foldl_nil]
    rw [tickProbe_mining _ _ _ _ _ _ _ _ (Or.inl h1)]
    dsimp only
    rw [hs1']
    rw [tickProbe_mining _ _ _ _ _ _ _ _ (Or.inl h2)]
    dsimp only
    exact ⟨rfl, rfl⟩
  obtain ⟨hp, hsy⟩ := htick
  constructor
  · rw [hp]
    simp only [List.map_cons, List.map_nil]
    rw [e1, e2]
    dsimp only
    rw [mrt1, mrt2, htr1, htr2]
    rfl
  · rw [hsy, e2]
    dsimp only
    unfold applyYieldUpdate
    dsimp only
    rw [mrt2, htr2]
    rfl

/-- Witness for C2: two identical miners over a 4-unit deposit in one
3500 ms tick; the first takes three units and the second is clamped to
the single remaining unit. -/
theorem tick_mining_sequential_visibility_witness :
    (tick (envConst 0) 3500 0 stateSeq).probes.map (fun p => p.inventory.Metal) =
      [probeSeq1.inventory.Metal + 3, probeSeq2.inventory.Metal + 1] ∧
    (tick (envConst 0) 3500 0 stateSeq).systems.map
        (fun sys => sys.resourceYield.Metal) =
      [sysSmall.resourceYield.Metal - 3 - 1] :=
  tick_mining_sequential_visibility (envConst 0) 3500 0 stateSeq probeSeq1
    probeSeq2 sysSmall 3 1 (by decide) (by decide) (by decide) (by decide)
    (by decide) (by decide) (by decide) (by decide) (by decide) (by decide)
    (by decide) (by decide)

/-- Replacing, by id, the probe the selected-probe lookup finds keeps the
replacement first for the same lookup. -/
theorem find?_update_by_id (l : List Probe) (sel : Option String)
    (pid : String) (p0 u : Probe)
    (hfind : l.find? (fun q => decide (some q.id = sel)) = some p0)
    (hp0 : p0.id = pid) (hu : u.id = p0.id) :
    (l.map (fun q => if q.id = pid then u else q)).find?
      (fun q => decide (some q.id = sel)) = some u := by
  induction l with
  | nil => cases hfind
  | cons a t ih =>
    by_cases ha : some a.id = sel
    · simp only [List.find?_cons, decide_eq_true ha] at hfind
      obtain rfl := Option.some.inj hfind
      simp only [List.map_cons]
      have hhead : (if a.id = pid then u else a) = u := if_pos hp0
      rw [hhead]
      have husel : some u.id = sel := by rw [hu]; exact ha
      simp only [List.find?_cons, decide_eq_true husel]
    · simp only [List.find?_cons, decide_eq_false ha] at hfind
      have hpa := List.find?_some hfind
      have hpsel : some p0.id = sel := of_decide_eq_true hpa
      have hane : ¬ a.id = pid := by
        intro hc
        exact ha (by rw [hc, ← hp0]; exact hpsel)
      simp only [List.map_cons]
      rw [if_neg hane]
      simp only [List.find?_cons, decide_eq_false ha]
      exact ih hfind

/-- C10: cancelling an in-progress replication is a lossless round trip.
If the selected probe can afford the blueprint, replicate followed by
stopOperation leaves it Idle with no pending blueprint and with its
inventory exactly as before the replicate command. -/
theorem replicate_stopOperation_roundtrip (g : GameState) (bp : ProbeBlueprint)
    (p : Probe)
    (hp : g.probes.find? (fun q => decide (some q.id = g.selectedProbeId)) =
      some p)
    (hM : bp.cost.Metal ≤ p.inventory.Metal)
    (hP : bp.cost.Plutonium ≤ p.inventory.Plutonium) :
    ∃ p2, (handleStopOperation (handleReplicate g bp)).probes.find?
        (fun q => decide (some q.id = g.selectedProbeId)) = some p2 ∧
      p2.state = ProbeState.Idle ∧
      p2.pendingBlueprint = none ∧
      p2.inventory = p.inventory := by
  have haff : ¬(p.inventory.Metal < bp.cost.Metal ∨
      p.inventory.Plutonium < bp.cost.Plutonium) := by
    rintro (h | h) <;> linarith
  have hrep : handleReplicate g bp =
      { g with
        probes := g.probes.map (fun q => if q.id = p.id then
          { p with
            state := ProbeState.Replicating
            progress := 0
            miningBuffer := 0
            inventory :=
              { Metal := p.inventory.Metal - bp.cost.Metal
              , Plutonium := p.inventory.Plutonium - bp.cost.Plutonium }
            pendingBlueprint := some bp } else q)
        logs := g.logs ++ [p.name ++ " starting fabrication of " ++ bp.name ++ "."] } := by
    unfold handleReplicate
    rw [hp]
    dsimp only
    rw [if_neg haff]
  have hfind1 : (handleReplicate g bp).probes.find?
      (fun q => decide (some q.id = g.selectedProbeId)) =
      some { p with
        state := ProbeState.Replicating
        progress := 0
        miningBuffer := 0
        inventory :=
          { Metal := p.inventory.Metal - bp.cost.Metal
          , Plutonium := p.inventory.Plutonium - bp.cost.Plutonium }
        pendingBlueprint := some bp } := by
    rw [hrep]
    exact find?_update_by_id g.probes g.selectedProbeId p.id p _ hp rfl rfl
  have hsel1 : (handleReplicate g bp).selectedProbeId = g.selectedProbeId := by
    rw [hrep]
  refine ⟨{ p with
      state := ProbeState.Idle
      progress := 0
      miningBuffer := 0
      inventory :=
        { Metal := p.inventory.Metal - bp.cost.Metal + bp.cost.Metal
        , Plutonium := p.inventory.Plutonium - bp.cost.Plutonium + bp.cost.Plutonium }
      pendingBlueprint := none }, ?_, rfl, rfl, ?_⟩
  · unfold handleStopOperation
    rw [hsel1, hfind1]
    dsimp only
    rw [if_neg (by
      rintro ⟨-, -, h3⟩
      exact h3 rfl)]
    dsimp only
    rw [if_pos rfl]
    dsimp only
    exact find?_update_by_id (handleReplicate g bp).probes
      g.selectedProbeId _ _ _ hfind1 rfl rfl
  · dsimp only
    rw [sub_add_cancel, sub_add_cancel]

/-- Witness for C10 at a concrete state: an affordable replicate followed
by stopOperation restores the inventory and clears the blueprint. -/
theorem replicate_stopOperation_roundtrip_witness :
    ∃ p2, (handleStopOperation (handleReplicate stateRt bpRep)).probes.find?
        (fun q => decide (some q.id = stateRt.selectedProbeId)) = some p2 ∧
      p2.state = ProbeState.Idle ∧
      p2.pendingBlueprint = none ∧
      p2.inventory = probeRt.inventory :=
  replicate_stopOperation_roundtrip stateRt bpRep probeRt (by decide)
    (by decide) (by decide)

/-- C8 amended: handleLaunch validates only existence (selected probe,
its current system, the target); it applies in every probe state, setting
Traveling and deducting floor(distance * fuelRate) when affordable and
solar-sailing otherwise, while handleScan does validate idleness and
leaves the state untouched for a non-Idle probe. -/
theorem handleLaunch_applies_regardless_of_state (g : GameState)
    (tid : String) (probe : Probe) (startSys targetSys : SolarSystem) (f : ℚ)
    (hp : g.probes.find? (fun q => decide (some q.id = g.selectedProbeId)) =
      some probe)
    (hstart : g.systems.find? (fun s => decide (some s.id = probe.locationId)) =
      some startSys)
    (htarget : g.systems.find? (fun s => decide (s.id = tid)) = some targetSys)
    (hf : f = jsFloor (ratSqrt
      ((targetSys.position.x - startSys.position.x) *
          (targetSys.position.x - startSys.position.x) +
        (targetSys.position.y - startSys.position.y) *
          (targetSys.position.y - startSys.position.y)) *
      FUEL_CONSUMPTION_RATE)) :
    (∃ p2, (handleLaunch g tid).probes.find?
        (fun q => decide (some q.id = g.selectedProbeId)) = some p2 ∧
      p2.state = ProbeState.Traveling ∧
      p2.targetSystemId = some targetSys.id ∧
      (f ≤ probe.inventory.Plutonium →
        p2.inventory.Plutonium = probe.inventory.Plutonium - f ∧
          p2.isSolarSailing = false) ∧
      (¬ f ≤ probe.inventory.Plutonium →
        p2.inventory.Plutonium = probe.inventory.Plutonium ∧
          p2.isSolarSailing = true)) ∧
    (probe.state ≠ ProbeState.Idle → handleScan g = g) := by
  subst hf
  constructor
  · have hlaunch : handleLaunch g tid =
        { g with
          probes := g.probes.map (fun q => if q.id = probe.id then
            { probe with
              state := ProbeState.Traveling
              targetSystemId := some targetSys.id
              inventory := { probe.inventory with
                Plutonium :=
                  if jsFloor (ratSqrt
                      ((targetSys.position.x - startSys.position.x) *
                          (targetSys.position.x - startSys.position.x) +
                        (targetSys.position.y - startSys.position.y) *
                          (targetSys.position.y - startSys.position.y)) *
                      FUEL_CONSUMPTION_RATE) ≤ probe.inventory.Plutonium then
                    probe.inventory.Plutonium - jsFloor (ratSqrt
                      ((targetSys.position.x - startSys.position.x) *
                          (targetSys.position.x - startSys.position.x) +
                        (targetSys.position.y - startSys.position.y) *
                          (targetSys.position.y - startSys.position.y)) *
                      FUEL_CONSUMPTION_RATE)
                  else probe.inventory.Plutonium }
              progress := 0
              miningBuffer := 0
              isSolarSailing := !(decide (jsFloor (ratSqrt
                  ((targetSys.position.x - startSys.position.x) *
                      (targetSys.position.x - startSys.position.x) +
                    (targetSys.position.y - startSys.position.y) *
                      (targetSys.position.y - startSys.position.y)) *
                  FUEL_CONSUMPTION_RATE) ≤ probe.inventory.Plutonium)) }
            else q)
          logs := g.logs ++
            [if jsFloor (ratSqrt
                ((targetSys.position.x - startSys.position.x) *
                    (targetSys.position.x - startSys.position.x) +
                  (targetSys.position.y - startSys.position.y) *
                    (targetSys.position.y - startSys.position.y)) *
                FUEL_CONSUMPTION_RATE) ≤ probe.inventory.Plutonium then
              probe.name ++ " launching to " ++ targetSys.name ++ "."
            else
              probe.name ++ " deploying solar sails for slow transit to " ++
                targetSys.name ++ "."] } := by
      unfold handleLaunch
      rw [hp]
      dsimp only
      rw [hstart, htarget]
    refine ⟨?_, ?_, ?_, ?_, ?_, ?_⟩
    case _ => exact { probe with
      state := ProbeState.Traveling
      targetSystemId := some targetSys.id
      inventory := { probe.inventory with
        Plutonium :=
          if jsFloor (ratSqrt
              ((targetSys.position.x - startSys.position.x) *
                  (targetSys.position.x - startSys.position.x) +
                (targetSys.position.y - startSys.position.y) *
                  (targetSys.position.y - startSys.position.y)) *
              FUEL_CONSUMPTION_RATE) ≤ probe.inventory.Plutonium then
            probe.inventory.Plutonium - jsFloor (ratSqrt
              ((targetSys.position.x - startSys.position.x) *
                  (targetSys.position.x - startSys.position.x) +
                (targetSys.position.y - startSys.position.y) *
                  (targetSys.position.y - startSys.position.y)) *
              FUEL_CONSUMPTION_RATE)
          else probe.inventory.Plutonium }
      progress := 0
      miningBuffer := 0
      isSolarSailing := !(decide (jsFloor (ratSqrt
          ((targetSys.position.x - startSys.position.x) *
              (targetSys.position.x - startSys.position.x) +
            (targetSys.position.y - startSys.position.y) *
              (targetSys.position.y - startSys.position.y)) *
          FUEL_CONSUMPTION_RATE) ≤ probe.inventory.Plutonium)) }
    · rw [hlaunch]
      exact find?_update_by_id g.probes g.selectedProbeId probe.id probe _ hp
        rfl rfl
    · rfl
    · rfl
    · intro hfuel
      dsimp only
      rw [if_pos hfuel, decide_eq_true hfuel]
      exact ⟨rfl, rfl⟩
    · intro hfuel
      dsimp only
      rw [if_neg hfuel, decide_eq_false hfuel]
      exact ⟨rfl, rfl⟩
  · intro hni
    unfold handleScan
    rw [hp]
    dsimp only
    rw [if_pos hni]

/-- Witness for the amended C8 theorem at the concrete mining probe:
launch at distance 100 applies with fuel 20 even though the probe is not
Idle, while handleScan is a no-op there. -/
theorem handleLaunch_applies_regardless_of_state_witness :
    (∃ p2, (handleLaunch stateLaunch "sys-b8").probes.find?
        (fun q => decide (some q.id = stateLaunch.selectedProbeId)) = some p2 ∧
      p2.state = ProbeState.Traveling ∧
      p2.targetSystemId = some sysLaunchB.id ∧
      ((20:ℚ) ≤ probeLaunch.inventory.Plutonium →
        p2.inventory.Plutonium = probeLaunch.inventory.Plutonium - 20 ∧
          p2.isSolarSailing = false) ∧
      (¬ (20:ℚ) ≤ probeLaunch.inventory.Plutonium →
        p2.inventory.Plutonium = probeLaunch.inventory.Plutonium ∧
          p2.isSolarSailing = true)) ∧
    (probeLaunch.state ≠ ProbeState.Idle →
      handleScan stateLaunch = stateLaunch) :=
  handleLaunch_applies_regardless_of_state stateLaunch "sys-b8" probeLaunch
    sysLaunchA sysLaunchB 20 (by decide) (by decide) (by decide) (by decide)

theorem tickProbe_env_blind (env1 env2 : Env) (relays : List String)
    (hru : Bool) (delta : ℚ) (now : ℤ) (earthPos : Coordinates)
    (acc : TickAcc) (probe : Probe)
    (hauto : probe.isAutonomyEnabled = false)
    (hexp : probe.state ≠ ProbeState.Exploring)
    (hscan : probe.state ≠ ProbeState.Scanning)
    (hrep : probe.state ≠ ProbeState.Replicating) :
    tickProbe env1 relays hru delta now earthPos acc probe =
      tickProbe env2 relays hru delta now earthPos acc probe := by
  unfold tickProbe
  have hne : ¬(0 < probe.stats.autonomyLevel ∧
      probe.isAutonomyEnabled = true ∧
      probe.state ≠ ProbeState.MiningMetal ∧
      probe.state ≠ ProbeState.MiningPlutonium) := by
    rintro ⟨-, h2, -⟩
    rw [hauto] at h2
    exact Bool.false_ne_true h2
  simp only [if_neg hne]
  have hexpc : ¬(probe.state = ProbeState.Exploring ∧
      probe.heading.isSome = true) := by
    rintro ⟨h, -⟩
    exact hexp h
  simp only [if_neg hexpc, if_neg hscan, if_neg hrep]

/-- C9 amended: with autonomy disabled on every probe and no probe in an
Exploring, Scanning or Replicating state, the tick result does not depend
on the randomness and trigonometry oracles at all. Randomness enters the
refactored tick only through sector generation (exploring and scanning)
and through the replication-completion probe id. -/
theorem tick_env_independent (env1 env2 : Env) (delta : ℚ) (now : ℤ)
    (g : GameState)
    (h : ∀ p ∈ g.probes, p.isAutonomyEnabled = false ∧
      p.state ≠ ProbeState.Exploring ∧ p.state ≠ ProbeState.Scanning ∧
      p.state ≠ ProbeState.Replicating) :
    tick env1 delta now g = tick env2 delta now g := by
  have hfold : ∀ (relays : List String) (hru : Bool)
      (earthPos : Coordinates) (acc0 : TickAcc),
      g.probes.foldl (tickProbe env1 relays hru delta now earthPos) acc0 =
        g.probes.foldl (tickProbe env2 relays hru delta now earthPos) acc0 := by
    intro relays hru earthPos acc0
    refine List.foldl_ext _ _ acc0 ?_
    intro acc p hp
    exact tickProbe_env_blind env1 env2 relays hru delta now earthPos acc p
      (h p hp).1 (h p hp).2.1 (h p hp).2.2.1 (h p hp).2.2.2
  show
    (let accF := g.probes.foldl
      (tickProbe env1 g.relays
        (g.purchasedUnlocks.contains "quantum_relay_network") delta now
        (match g.systems.find? (fun s => decide (s.id = "sys-earth")) with
          | some s => s.position
          | none => { x := UNIVERSE_WIDTH / 2, y := UNIVERSE_HEIGHT / 2 }))
      { systems := g.systems
      , generatedSectors := g.generatedSectors
      , colonized := g.probes.foldl
          (fun acc p =>
            match p.originSystemId with
            | some o => acc ++ [o]
            | none => acc) []
      , finalProbes := []
      , createdProbes := []
      , scienceDelta := 0
      , rIdx := 0 }
    { g with
      systems := accF.systems
      probes := accF.finalProbes ++ accF.createdProbes
      generatedSectors := accF.generatedSectors
      science := g.science + accF.scienceDelta }) =
    (let accF := g.probes.foldl
      (tickProbe env2 g.relays
        (g.purchasedUnlocks.contains "quantum_relay_network") delta now
        (match g.systems.find? (fun s => decide (s.id = "sys-earth")) with
          | some s => s.position
          | none => { x := UNIVERSE_WIDTH / 2, y := UNIVERSE_HEIGHT / 2 }))
      { systems := g.systems
      , generatedSectors := g.generatedSectors
      , colonized := g.probes.foldl
          (fun acc p =>
            match p.originSystemId with
            | some o => acc ++ [o]
            | none => acc) []
      , finalProbes := []
      , createdProbes := []
      , scienceDelta := 0
      , rIdx := 0 }
    { g with
      systems := accF.systems
      probes := accF.finalProbes ++ accF.createdProbes
      generatedSectors := accF.generatedSectors
      science := g.science + accF.scienceDelta })
  rw [hfold]

/-- Witness for the amended C9 theorem: the busy-miner state ticks to the
same result under two different randomness oracles. -/
theorem tick_env_independent_witness :
    (∀ p ∈ stateLaunch.probes, p.isAutonomyEnabled = false ∧
      p.state ≠ ProbeState.Exploring ∧ p.state ≠ ProbeState.Scanning ∧
      p.state ≠ ProbeState.Replicating) ∧
    tick (envConst (1/2)) 1000 5000 stateLaunch =
      tick (envConst (1/3)) 1000 5000 stateLaunch :=
  ⟨by decide, tick_env_independent (envConst (1/2)) (envConst (1/3)) 1000 5000
    stateLaunch (by decide)⟩

theorem pushDecisionLog_inventory (p : Probe) (s : String) :
    (pushDecisionLog p s).inventory = p.inventory := by
  unfold pushDecisionLog
  split <;> rfl

theorem pushDecisionLog_pendingBlueprint (p : Probe) (s : String) :
    (pushDecisionLog p s).pendingBlueprint = p.pendingBlueprint := by
  unfold pushDecisionLog
  split <;> rfl

theorem processTravelingProbe_inventory (probe : Probe)
    (systems : List SolarSystem) (delta : ℚ) :
    (processTravelingProbe probe systems delta).probe.inventory =
      probe.inventory := by
  unfold processTravelingProbe
  repeat' (first | rfl | (dsimp only) | split)

theorem processResearchingProbe_inventory (probe : Probe)
    (systems : List SolarSystem) (delta : ℚ) :
    (processResearchingProbe probe systems delta).probe.inventory =
      probe.inventory := by
  unfold processResearchingProbe
  repeat' (first | rfl | (dsimp only) | split)

theorem processScanningProbe_inventory (env : Env) (rBase : ℕ) (probe : Probe)
    (systems : List SolarSystem) (generatedSectors : List String)
    (earthPos : Coordinates) (delta : ℚ) (now : ℤ) :
    (processScanningProbe env rBase probe systems generatedSectors earthPos
      delta now).probe.inventory = probe.inventory := by
  unfold processScanningProbe
  repeat' (first | rfl | (dsimp only) | split)

theorem processReplicatingProbe_parent_inventory (env : Env) (rBase : ℕ)
    (probe : Probe) (delta : ℚ) (cols : List String) (now : ℤ) :
    (processReplicatingProbe env rBase probe delta cols now).probe.inventory =
      probe.inventory := by
  unfold processReplicatingProbe
  repeat' (first | rfl | (dsimp only) | split)

theorem processReplicatingProbe_children (env : Env) (rBase : ℕ)
    (probe : Probe) (delta : ℚ) (cols : List String) (now : ℤ)
    (hbp : bpInvOK probe = true) :
    ∀ q ∈ (processReplicatingProbe env rBase probe delta cols now).newProbes,
      invNonneg q := by
  intro q hq
  unfold processReplicatingProbe at hq
  cases hpb : probe.pendingBlueprint with
  | none =>
    rw [hpb] at hq
    simp at hq
  | some bp =>
    rw [hpb] at hq
    dsimp only at hq
    split at hq
    · simp only [List.mem_singleton] at hq
      subst hq
      unfold bpInvOK at hbp
      rw [hpb] at hbp
      dsimp only at hbp
      unfold invNonneg
      dsimp only
      cases hii : bp.initialInventory with
      | none => exact ⟨le_refl 0, le_refl 0⟩
      | some ii =>
        rw [hii] at hbp
        simp only [Bool.and_eq_true, decide_eq_true_eq] at hbp
        exact hbp
    · simp at hq

theorem processMiningProbe_invNonneg (probe : Probe)
    (systems : List SolarSystem) (delta : ℚ) (hnn : invNonneg probe) :
    invNonneg (processMiningProbe probe systems delta).probe := by
  cases hfind : findWithIndex (fun s => some s.id = probe.locationId) systems with
  | none =>
    rw [processMiningProbe_eq_noSystem probe systems delta hfind]
    exact hnn
  | some pair =>
    obtain ⟨i, s⟩ := pair
    by_cases hy : 0 < s.resourceYield.get (miningResourceTypeOf probe)
    · by_cases hb : 1 ≤ miningBufferAfter probe s delta
      · rw [processMiningProbe_eq_transfer probe systems delta i s hfind hy hb]
        unfold invNonneg
        dsimp only
        refine ResourceMap.nonneg_set _ _ _ ⟨hnn.1, hnn.2⟩ ?_
        have ht := miningTransfer_nonneg probe s delta hy hb
        have hg : 0 ≤ probe.inventory.get (miningResourceTypeOf probe) := by
          cases hmrt : miningResourceTypeOf probe
          · exact hnn.1
          · exact hnn.2
        exact add_nonneg hg ht
      · rw [processMiningProbe_eq_accumulate probe systems delta i s hfind hy hb]
        exact hnn
    · rw [processMiningProbe_eq_depleted probe systems delta i s hfind hy]
      exact hnn

/-- The exploring step decomposes into burn, dock check, diversion and
safety stages. -/
theorem explore_decomp (env : Env) (rBase : ℕ) (probe : Probe)
    (systems : List SolarSystem) (generatedSectors : List String)
    (earthPos : Coordinates) (delta : ℚ) (now : ℤ) (hd : ℚ)
    (hh : probe.heading = some hd) :
    processExploringProbe env rBase probe systems generatedSectors earthPos
      delta now =
    (let pos1 := explorePos1 env probe hd delta
     let probe2 := exploreBurn env probe hd delta
     let sectorResult := checkSectorGeneration env rBase pos1 generatedSectors
       earthPos now systems.length
     let sectorGenerated := sectorResult.generated
     let newSystems := sectorResult.newSystems
     let randConsumed :=
       if sectorGenerated then sectorGenDrawCount env rBase else 0
     match findWithIndex
         (fun s => hypot (s.position.x - pos1.x) (s.position.y - pos1.y) ≤ 5)
         systems with
     | some (i, sys) =>
       { probe := { probe2 with
           state := ProbeState.Idle
           locationId := some sys.id
           position := sys.position
           heading := none }
       , systemUpdates :=
           if sys.visited = false ∨ sys.discovered = false then
             [{ index := i, updates := visitedDiscoveredPatch }]
           else []
       , sectorGenerated := sectorGenerated
       , newSystems := newSystems
       , randConsumed := randConsumed }
     | none =>
       let allSystems :=
         if sectorGenerated then systems ++ newSystems else systems
       { probe := exploreSafety env
           (exploreDivert env probe2 pos1 allSystems hd (now : ℚ))
           pos1 allSystems (0 < probe.inventory.Plutonium) (now : ℚ)
       , systemUpdates := performPassiveScan pos1 allSystems
       , sectorGenerated := sectorGenerated
       , newSystems := newSystems
       , randConsumed := randConsumed }) := by
  unfold processExploringProbe explorePos1 exploreBurn exploreDivert
    exploreSafety
  rw [hh]

theorem exploreBurn_invNonneg (env : Env) (probe : Probe) (hd delta : ℚ)
    (hp : invNonneg probe) : invNonneg (exploreBurn env probe hd delta) := by
  unfold invNonneg exploreBurn
  dsimp only
  split
  · exact ⟨hp.1, le_max_left 0 _⟩
  · exact hp

theorem exploreDivert_invNonneg (env : Env) (p : Probe) (pos1 : Coordinates)
    (allSystems : List SolarSystem) (hd nowq : ℚ) (hp : invNonneg p) :
    invNonneg (exploreDivert env p pos1 allSystems hd nowq) := by
  unfold invNonneg exploreDivert
  repeat' (first | (dsimp only) | split)
  all_goals first
    | exact hp
    | exact ⟨hp.1, le_refl 0⟩
    | (rename_i hg; exact ⟨hp.1, sub_nonneg.2 hg⟩)

theorem exploreSafety_invNonneg (env : Env) (p : Probe) (pos1 : Coordinates)
    (allSystems : List SolarSystem) (hasFuel : Prop) (inst : Decidable hasFuel)
    (nowq : ℚ) (hp : invNonneg p) :
    invNonneg (exploreSafety env p pos1 allSystems hasFuel nowq) := by
  unfold invNonneg exploreSafety
  repeat' (first | (dsimp only) | split)
  all_goals first
    | exact hp
    | exact ⟨hp.1, le_max_left 0 _⟩

theorem processExploringProbe_invNonneg (env : Env) (rBase : ℕ) (probe : Probe)
    (systems : List SolarSystem) (generatedSectors : List String)
    (earthPos : Coordinates) (delta : ℚ) (now : ℤ) (hnn : invNonneg probe) :
    invNonneg (processExploringProbe env rBase probe systems generatedSectors
      earthPos delta now).probe := by
  cases hh : probe.heading with
  | none =>
    unfold processExploringProbe
    rw [hh]
    exact hnn
  | some hd =>
    rw [explore_decomp env rBase probe systems generatedSectors earthPos delta
      now hd hh]
    dsimp only
    split
    · exact ⟨(exploreBurn_invNonneg env probe hd delta hnn).1,
        (exploreBurn_invNonneg env probe hd delta hnn).2⟩
    · exact exploreSafety_invNonneg env _ _ _ _ _ _
        (exploreDivert_invNonneg env _ _ _ _ _
          (exploreBurn_invNonneg env probe hd delta hnn))

theorem defaultBehavior_ne_replicate (probe : Probe)
    (cso : Option SolarSystem) (ps : Option ProbeState) (d : BehaviorDecision)
    (h : processDefaultBehavior probe cso ps = some d) :
    d.action ≠ DecisionAction.replicate := by
  unfold processDefaultBehavior at h
  repeat' (first | (simp only [] at h) | split at h)
  all_goals first
    | exact Option.noConfusion h
    | (cases h; simp)

theorem focusMining_ne_replicate (probe : Probe) (systems : List SolarSystem)
    (cso : Option SolarSystem) (d : BehaviorDecision)
    (h : processFocusMining probe systems cso = some d) :
    d.action ≠ DecisionAction.replicate := by
  unfold processFocusMining at h
  repeat' (first | (simp only [] at h) | split at h)
  all_goals first
    | exact Option.noConfusion h
    | exact defaultBehavior_ne_replicate _ _ _ _ h
    | (cases h; simp)

theorem focusExploring_ne_replicate (probe : Probe)
    (systems : List SolarSystem) (cso : Option SolarSystem)
    (d : BehaviorDecision)
    (h : processFocusExploring probe systems cso = some d) :
    d.action ≠ DecisionAction.replicate := by
  unfold processFocusExploring at h
  repeat' (first | (simp only [] at h) | split at h)
  all_goals first
    | exact Option.noConfusion h
    | (cases h; simp)

theorem focusScience_ne_replicate (probe : Probe) (systems : List SolarSystem)
    (cso : Option SolarSystem) (hrel : Bool) (hru : Bool)
    (d : BehaviorDecision)
    (h : processFocusScience probe systems cso hrel hru = some d) :
    d.action ≠ DecisionAction.replicate := by
  unfold processFocusScience at h
  repeat' (first | (simp only [] at h) | split at h)
  all_goals first
    | exact Option.noConfusion h
    | exact defaultBehavior_ne_replicate _ _ _ _ h
    | (cases h; simp)

theorem focusRepAC_replicate (probe : Probe) (systems : List SolarSystem)
    (cso : Option SolarSystem) (d : BehaviorDecision)
    (h : processFocusReplicationAfterCooldown probe systems cso = some d)
    (ha : d.action = DecisionAction.replicate) :
    d.replicationThresholds =
      some ⟨REPLICATION_METAL, REPLICATION_PLUTONIUM, (10000 : ℚ)⟩ ∧
    REPLICATION_METAL ≤ probe.inventory.Metal ∧
    REPLICATION_PLUTONIUM ≤ probe.inventory.Plutonium := by
  unfold processFocusReplicationAfterCooldown at h
  rcases cso with _ | cs
  · dsimp only at h
    repeat' (first | (simp only [] at h) | split at h)
    all_goals first
      | exact Option.noConfusion h
      | (cases h; simp at ha)
  · dsimp only at h
    by_cases hM : REPLICATION_METAL ≤ probe.inventory.Metal ∧
        REPLICATION_PLUTONIUM ≤ probe.inventory.Plutonium
    · rw [if_pos hM] at h
      refine ⟨?_, hM.1, hM.2⟩
      repeat' (first | (simp only [] at h) | split at h)
      all_goals first
        | exact Option.noConfusion h
        | (cases h; rfl)
        | (cases h; simp at ha)
    · rw [if_neg hM] at h
      repeat' (first | (simp only [] at h) | split at h)
      all_goals first
        | exact Option.noConfusion h
        | (cases h; simp at ha)

theorem focusReplication_replicate (probe : Probe)
    (systems : List SolarSystem) (cso : Option SolarSystem) (lrt : Option ℚ)
    (now : ℚ) (d : BehaviorDecision)
    (h : processFocusReplication probe systems cso lrt now = some d)
    (ha : d.action = DecisionAction.replicate) :
    d.replicationThresholds =
      some ⟨REPLICATION_METAL, REPLICATION_PLUTONIUM, (10000 : ℚ)⟩ ∧
    REPLICATION_METAL ≤ probe.inventory.Metal ∧
    REPLICATION_PLUTONIUM ≤ probe.inventory.Plutonium := by
  unfold processFocusReplication at h
  rcases lrt with _ | t
  · exact focusRepAC_replicate probe systems cso d h ha
  · dsimp only at h
    split at h
    · cases h
      simp at ha
    · exact focusRepAC_replicate probe systems cso d h ha

theorem behaviorMode_replicate (probe : Probe) (systems : List SolarSystem)
    (relays : List String) (hru : Bool) (lrt : Option ℚ) (now : ℚ)
    (ps : Option ProbeState) (d : BehaviorDecision)
    (h : processBehaviorMode probe systems relays hru lrt now ps = some d)
    (ha : d.action = DecisionAction.replicate) :
    d.replicationThresholds =
      some ⟨REPLICATION_METAL, REPLICATION_PLUTONIUM, (10000 : ℚ)⟩ ∧
    REPLICATION_METAL ≤ probe.inventory.Metal ∧
    REPLICATION_PLUTONIUM ≤ probe.inventory.Plutonium := by
  unfold processBehaviorMode at h
  dsimp only at h
  cases hb : probe.aiBehavior <;> rw [hb] at h <;> dsimp only at h
  · exact absurd ha (defaultBehavior_ne_replicate _ _ _ _ h)
  · exact absurd ha (focusMining_ne_replicate _ _ _ _ h)
  · exact absurd ha (focusExploring_ne_replicate _ _ _ _ h)
  · exact absurd ha (focusScience_ne_replicate _ _ _ _ _ _ h)
  · exact focusReplication_replicate _ _ _ _ _ _ h ha

theorem processAutonomousProbe_invNonneg (probe : Probe)
    (systems : List SolarSystem) (cols : List String) (now : ℚ)
    (relays : List String) (hru : Bool) (hnn : invNonneg probe) :
    invNonneg (processAutonomousProbe probe systems cols now relays hru).probe := by
  obtain ⟨h1, h2⟩ := hnn
  unfold invNonneg
  unfold processAutonomousProbe
  repeat' (first
    | (exact ⟨h1, h2⟩)
    | (simp only [pushDecisionLog_inventory] at *)
    | (simp only [] at *)
    | split)
  all_goals constructor <;> first | exact h1 | exact h2 | linarith

theorem processAutonomousProbe_pendingBlueprint (probe : Probe)
    (systems : List SolarSystem) (cols : List String) (now : ℚ)
    (relays : List String) (hru : Bool) :
    (processAutonomousProbe probe systems cols now relays
      hru).probe.pendingBlueprint = probe.pendingBlueprint := by
  unfold processAutonomousProbe
  repeat' (first
    | rfl
    | (simp only [pushDecisionLog_pendingBlueprint])
    | (simp only [])
    | split)

theorem processAutonomousProbe_replicate_spec (probe : Probe)
    (systems : List SolarSystem) (cols : List String) (now : ℚ)
    (relays : List String) (hru : Bool) (r : AutonomyResult)
    (hr : processAutonomousProbe probe systems cols now relays hru = r)
    (h : r.shouldReplicate = true) :
    r.replicationThresholds =
      some ⟨REPLICATION_METAL, REPLICATION_PLUTONIUM, (10000 : ℚ)⟩ ∧
    REPLICATION_METAL ≤ r.probe.inventory.Metal ∧
    REPLICATION_PLUTONIUM ≤ r.probe.inventory.Plutonium := by
  unfold processAutonomousProbe at hr
  by_cases hg1 : probe.stats.autonomyLevel = 0 ∨ probe.isAutonomyEnabled = false
  · rw [if_pos hg1] at hr
    subst hr
    exact absurd h (by simp)
  · rw [if_neg hg1] at hr
    by_cases hg2 : probe.state = ProbeState.Traveling ∨
        probe.state = ProbeState.Replicating ∨
        probe.state = ProbeState.Exploring
    · rw [if_pos hg2] at hr
      subst hr
      exact absurd h (by simp)
    · rw [if_neg hg2] at hr
      simp only [] at hr
      set p1 := (if probe.state = ProbeState.MiningMetal ∨
          probe.state = ProbeState.MiningPlutonium ∨
          probe.state = ProbeState.Scanning ∨
          probe.state = ProbeState.Researching then
        { probe with
            state := ProbeState.Idle, progress := 0, miningBuffer := 0 }
        else probe) with hp1
      by_cases hsc : p1.locationId.isSome = true ∧
          p1.lastScannedSystemId ≠ p1.locationId
      · rw [if_pos hsc] at hr
        subst hr
        exact absurd h (by simp)
      · rw [if_neg hsc] at hr
        cases hbm : processBehaviorMode p1 systems relays hru
            p1.lastReplicationTime now (some probe.state) with
        | none =>
          rw [hbm] at hr
          subst hr
          exact absurd h (by simp)
        | some decision =>
          rw [hbm] at hr
          simp only [] at hr
          by_cases hcond : (pushDecisionLog p1
              decision.reason).aiBehavior = AIBehavior.FocusReplication ∧
              decision.action = DecisionAction.replicate
          · rw [if_pos hcond] at hr
            subst hr
            obtain ⟨hth, hM, hP⟩ := behaviorMode_replicate p1 systems relays
              hru p1.lastReplicationTime now (some probe.state) decision hbm
              hcond.2
            refine ⟨hth, ?_, ?_⟩
            · simp only []
              rw [pushDecisionLog_inventory]
              exact hM
            · simp only []
              rw [pushDecisionLog_inventory]
              exact hP
          · rw [if_neg hcond] at hr
            repeat' (first | (simp only [] at hr) | split at hr)
            all_goals (subst hr; exact absurd h (by simp))

theorem tickDispatch_accOK (env : Env) (relays : List String) (hru : Bool)
    (delta : ℚ) (now : ℤ) (earthPos : Coordinates) (p1 : Probe) (a1 : TickAcc)
    (h1 : invNonneg p1) (hb1 : bpInvOK p1 = true)
    (hf1 : ∀ q ∈ a1.finalProbes, invNonneg q)
    (hc1 : ∀ q ∈ a1.createdProbes, invNonneg q) :
    accOK (if p1.state = ProbeState.Traveling ∧
        p1.targetSystemId.isSome = true ∧ p1.locationId.isSome = true then
      let r := processTravelingProbe p1 a1.systems delta
      { a1 with
        systems := applySystemUpdates a1.systems r.systemUpdates
        finalProbes := a1.finalProbes ++ [r.probe] }
    else if p1.state = ProbeState.Exploring ∧ p1.heading.isSome = true then
      let r := processExploringProbe env a1.rIdx p1 a1.systems
        a1.generatedSectors earthPos delta now
      let systems1 := applySystemUpdates a1.systems r.systemUpdates
      let systems2 :=
        if r.sectorGenerated then systems1 ++ r.newSystems else systems1
      { a1 with
        systems := systems2
        rIdx := a1.rIdx + r.randConsumed
        finalProbes := a1.finalProbes ++ [r.probe] }
    else if p1.state = ProbeState.MiningMetal ∨
        p1.state = ProbeState.MiningPlutonium then
      let r := processMiningProbe p1 a1.systems delta
      let systems1 := applyYieldUpdate a1.systems r.systemYieldUpdate
      if r.shouldCheckAutonomy = true ∧ 0 < r.probe.stats.autonomyLevel ∧
          r.probe.isAutonomyEnabled = true then
        let r2 := processAutonomousProbe r.probe systems1 a1.colonized
          (now : ℚ) relays hru
        { a1 with
          systems := applySystemChanges systems1 r2.systemChanges
          finalProbes := a1.finalProbes ++ [r2.probe] }
      else
        { a1 with
          systems := systems1
          finalProbes := a1.finalProbes ++ [r.probe] }
    else if p1.state = ProbeState.Replicating then
      let r := processReplicatingProbe env a1.rIdx p1 delta a1.colonized now
      { a1 with
        colonized := r.colonized
        rIdx := a1.rIdx + r.randConsumed
        createdProbes := a1.createdProbes ++ r.newProbes
        finalProbes := a1.finalProbes ++ [r.probe] }
    else if p1.state = ProbeState.Scanning then
      let r := processScanningProbe env a1.rIdx p1 a1.systems
        a1.generatedSectors earthPos delta now
      let systems1 := applySystemUpdates a1.systems r.systemUpdates
      let systems2 :=
        if r.sectorGenerated then systems1 ++ r.newSystems else systems1
      { a1 with
        systems := systems2
        rIdx := a1.rIdx + r.randConsumed
        finalProbes := a1.finalProbes ++ [r.probe] }
    else if p1.state = ProbeState.Researching then
      let r := processResearchingProbe p1 a1.systems delta
      { a1 with
        systems := applySystemUpdates a1.systems r.systemUpdates
        scienceDelta := a1.scienceDelta + r.scienceDelta
        finalProbes := a1.finalProbes ++ [r.probe] }
    else
      { a1 with finalProbes := a1.finalProbes ++ [p1] }) := by
  unfold accOK
  split
  · refine ⟨fun q hq => ?_, fun q hq => ?_⟩
    · simp only [List.mem_append, List.mem_singleton] at hq
      rcases hq with hq | hq
      · exact hf1 q hq
      · subst hq
        unfold invNonneg
        rw [processTravelingProbe_inventory]
        exact h1
    · simp only [] at hq
      exact hc1 q hq
  · split
    · refine ⟨fun q hq => ?_, fun q hq => ?_⟩
      · simp only [List.mem_append, List.mem_singleton] at hq
        rcases hq with hq | hq
        · exact hf1 q hq
        · subst hq
          exact processExploringProbe_invNonneg env a1.rIdx p1 a1.systems
            a1.generatedSectors earthPos delta now h1
      · simp only [] at hq
        exact hc1 q hq
    · split
      · simp only []
        split
        · refine ⟨fun q hq => ?_, fun q hq => ?_⟩
          · simp only [List.mem_append, List.mem_singleton] at hq
            rcases hq with hq | hq
            · exact hf1 q hq
            · subst hq
              exact processAutonomousProbe_invNonneg _ _ _ _ _ _
                (processMiningProbe_invNonneg p1 a1.systems delta h1)
          · simp only [] at hq
            exact hc1 q hq
        · refine ⟨fun q hq => ?_, fun q hq => ?_⟩
          · simp only [List.mem_append, List.mem_singleton] at hq
            rcases hq with hq | hq
            · exact hf1 q hq
            · subst hq
              exact processMiningProbe_invNonneg p1 a1.systems delta h1
          · simp only [] at hq
            exact hc1 q hq
      · split
        · refine ⟨fun q hq => ?_, fun q hq => ?_⟩
          · simp only [List.mem_append, List.mem_singleton] at hq
            rcases hq with hq | hq
            · exact hf1 q hq
            · subst hq
              unfold invNonneg
              rw [processReplicatingProbe_parent_inventory]
              exact h1
          · simp only [List.mem_append] at hq
            rcases hq with hq | hq
            · exact hc1 q hq
            · exact processReplicatingProbe_children env a1.rIdx p1 delta
                a1.colonized now hb1 q hq
        · split
          · refine ⟨fun q hq => ?_, fun q hq => ?_⟩
            · simp only [List.mem_append, List.mem_singleton] at hq
              rcases hq with hq | hq
              · exact hf1 q hq
              · subst hq
                unfold invNonneg
                rw [processScanningProbe_inventory]
                exact h1
            · simp only [] at hq
              exact hc1 q hq
          · split
            · refine ⟨fun q hq => ?_, fun q hq => ?_⟩
              · simp only [List.mem_append, List.mem_singleton] at hq
                rcases hq with hq | hq
                · exact hf1 q hq
                · subst hq
                  unfold invNonneg
                  rw [processResearchingProbe_inventory]
                  exact h1
              · simp only [] at hq
                exact hc1 q hq
            · refine ⟨fun q hq => ?_, fun q hq => ?_⟩
              · simp only [List.mem_append, List.mem_singleton] at hq
                rcases hq with hq | hq
                · exact hf1 q hq
                · subst hq
                  exact h1
              · simp only [] at hq
                exact hc1 q hq

set_option maxHeartbeats 3200000 in
theorem tickProbe_accOK (env : Env) (relays : List String) (hru : Bool)
    (delta : ℚ) (now : ℤ) (earthPos : Coordinates) (acc : TickAcc)
    (probe : Probe) (hp : invNonneg probe) (hbp : bpInvOK probe = true)
    (hacc : accOK acc) :
    accOK (tickProbe env relays hru delta now earthPos acc probe) := by
  obtain ⟨hfin, hcre⟩ := hacc
  have hbp1 : bpInvOK (processAutonomousProbe probe acc.systems acc.colonized
      (now : ℚ) relays hru).probe = true := by
    unfold bpInvOK
    rw [processAutonomousProbe_pendingBlueprint]
    exact hbp
  unfold tickProbe
  simp only []
  by_cases helig : 0 < probe.stats.autonomyLevel ∧
      probe.isAutonomyEnabled = true ∧
      probe.state ≠ ProbeState.MiningMetal ∧
      probe.state ≠ ProbeState.MiningPlutonium
  · rw [if_pos helig]
    set r0 := processAutonomousProbe probe acc.systems acc.colonized
      (now : ℚ) relays hru with hr0
    have hinv0 : invNonneg r0.probe := by
      rw [hr0]
      exact processAutonomousProbe_invNonneg probe acc.systems acc.colonized
        (now : ℚ) relays hru hp
    cases hsr : r0.shouldReplicate with
    | false =>
      cases hth : r0.replicationThresholds with
      | none =>
        simp only []
        exact tickDispatch_accOK env relays hru delta now earthPos r0.probe
          { acc with
            systems := applySystemChanges acc.systems r0.systemChanges }
          hinv0 hbp1 (fun q hq => hfin q hq) (fun q hq => hcre q hq)
      | some t =>
        simp only []
        exact tickDispatch_accOK env relays hru delta now earthPos r0.probe
          { acc with
            systems := applySystemChanges acc.systems r0.systemChanges }
          hinv0 hbp1 (fun q hq => hfin q hq) (fun q hq => hcre q hq)
    | true =>
      cases hth : r0.replicationThresholds with
      | none =>
        simp only []
        exact tickDispatch_accOK env relays hru delta now earthPos r0.probe
          { acc with
            systems := applySystemChanges acc.systems r0.systemChanges }
          hinv0 hbp1 (fun q hq => hfin q hq) (fun q hq => hcre q hq)
      | some t =>
        simp only []
        obtain ⟨hth500, hM, hP⟩ := processAutonomousProbe_replicate_spec probe
          acc.systems acc.colonized (now : ℚ) relays hru r0 hr0.symm hsr
        rw [hth] at hth500
        obtain rfl : t =
            ⟨REPLICATION_METAL, REPLICATION_PLUTONIUM, (10000 : ℚ)⟩ :=
          Option.some.inj hth500
        exact tickDispatch_accOK env relays hru delta now earthPos
          { r0.probe with
            state := ProbeState.Replicating
            progress := 0
            pendingBlueprint := some
              { id := "auto-bp-" ++ toString now
              , name := r0.probe.model
              , stats := r0.probe.stats
              , cost := { Metal := REPLICATION_METAL
                        , Plutonium := REPLICATION_PLUTONIUM
                        , time := (10000 : ℚ) }
              , isCustom := true }
            inventory :=
              { Metal := r0.probe.inventory.Metal - REPLICATION_METAL
              , Plutonium :=
                  r0.probe.inventory.Plutonium - REPLICATION_PLUTONIUM } }
          { acc with
            systems := applySystemChanges acc.systems r0.systemChanges
            colonized :=
              match r0.probe.locationId with
              | some l => acc.colonized ++ [l]
              | none => acc.colonized }
          ⟨sub_nonneg.2 hM, sub_nonneg.2 hP⟩ rfl
          (fun q hq => hfin q hq) (fun q hq => hcre q hq)
  · rw [if_neg helig]
    simp only []
    exact tickDispatch_accOK env relays hru delta now earthPos probe acc hp
      hbp (fun q hq => hfin q hq) (fun q hq => hcre q hq)

theorem tick_foldl_accOK (env : Env) (relays : List String) (hru : Bool)
    (delta : ℚ) (now : ℤ) (earthPos : Coordinates) (l : List Probe) :
    ∀ (acc : TickAcc),
      (∀ p ∈ l, invNonneg p ∧ bpInvOK p = true) → accOK acc →
      accOK (l.foldl (tickProbe env relays hru delta now earthPos) acc) := by
  induction l with
  | nil =>
    intro acc _ hacc
    exact hacc
  | cons p t ih =>
    intro acc hl hacc
    rw [List.foldl_cons]
    exact ih _ (fun q hq => hl q (List.mem_cons_of_mem p hq))
      (tickProbe_accOK env relays hru delta now earthPos acc p
        (hl p (List.mem_cons_self p t)).1 (hl p (List.mem_cons_self p t)).2
        hacc)

/-- C3: inventory non-negativity is a tick invariant. If every probe
entering the tick has non-negative Metal and Plutonium, and no pending
blueprint grants a negative initial inventory, then after the tick every
probe (surviving or newly constructed) again has Metal ≥ 0 and
Plutonium ≥ 0: the exploring fuel burn and the safety turn deduction are
clamped at zero, turn and travel deductions are guarded by affordability
checks, mining only adds a non-negative transfer, and the replication
deduction is guarded by the 500/300 thresholds. -/
theorem tick_inventory_nonneg (env : Env) (delta : ℚ) (now : ℤ)
    (g : GameState)
    (hg : ∀ p ∈ g.probes, invNonneg p ∧ bpInvOK p = true) :
    ∀ p ∈ (tick env delta now g).probes, invNonneg p := by
  intro p hp
  unfold tick at hp
  simp only [] at hp
  rw [List.mem_append] at hp
  rcases hp with hp | hp
  · exact (tick_foldl_accOK env g.relays
      (g.purchasedUnlocks.contains "quantum_relay_network") delta now _
      g.probes _ hg
      ⟨fun q hq => absurd hq (List.not_mem_nil q),
        fun q hq => absurd hq (List.not_mem_nil q)⟩).1 p hp
  · exact (tick_foldl_accOK env g.relays
      (g.purchasedUnlocks.contains "quantum_relay_network") delta now _
      g.probes _ hg
      ⟨fun q hq => absurd hq (List.not_mem_nil q),
        fun q hq => absurd hq (List.not_mem_nil q)⟩).2 p hp

/-- Witness for C3 at the concrete busy-miner state: its only probe has
non-negative inventory and a clean blueprint, and the tick preserves
non-negativity. -/
theorem tick_inventory_nonneg_witness :
    (∀ p ∈ stateLaunch.probes, invNonneg p ∧ bpInvOK p = true) ∧
    ∀ p ∈ (tick (envConst (1/2)) 1000 5000 stateLaunch).probes, invNonneg p :=
  ⟨by decide, tick_inventory_nonneg (envConst (1/2)) 1000 5000 stateLaunch
    (by decide)⟩

end VonNeumann
